import Mathlib

/-!
Pico_LCD: HD44780 character LCD driver behind an I2C expander.

A shallow embedding of `src/lcd_cmd.hpp` and `src/lcd20x4.cpp`.

* Bytes (`uint8_t`) are natural numbers; every conversion of a computed `int`
  value to `uint8_t` is written `u8` (reduction modulo 256), while constant
  expressions below 256 are passed as they are.
* The driver talks to three external collaborators: the blocking bus write,
  the timeout-bounded bus write and the two busy-wait delays.  Each call is
  recorded, in program order, as an `Event` appended to the trace of the
  hardware state `Hw`.
* The presence probe `i2c_device_present` is external as well; its answer is
  passed to `is_present` and `init` as a Boolean argument.
* Console diagnostics (`std::cout`) are not recorded.
-/

namespace PicoLcd

/-! ## Command vocabulary (`lcd_cmd.hpp`) -/

abbrev LCD_CLEARDISPLAY : Nat := 0x01
abbrev LCD_RETURNHOME : Nat := 0x02
abbrev LCD_ENTRYMODESET : Nat := 0x04
abbrev LCD_DISPLAYCONTROL : Nat := 0x08
abbrev LCD_CURSORSHIFT : Nat := 0x10
abbrev LCD_FUNCTIONSET : Nat := 0x20
abbrev LCD_FUNCTIONRESET : Nat := 0x30
abbrev LCD_SETCGRAMADDR : Nat := 0x40
abbrev LCD_SETDDRAMADDR : Nat := 0x80

abbrev LCD_ENTRYRIGHT : Nat := 0x00
abbrev LCD_ENTRYLEFT : Nat := 0x02
abbrev LCD_ENTRYSHIFTINCREMENT : Nat := 0x01
abbrev LCD_ENTRYSHIFTDECREMENT : Nat := 0x00

abbrev LCD_DISPLAYON : Nat := 0x04
abbrev LCD_DISPLAYOFF : Nat := 0x00
abbrev LCD_CURSORON : Nat := 0x02
abbrev LCD_CURSOROFF : Nat := 0x00
abbrev LCD_BLINKON : Nat := 0x01
abbrev LCD_BLINKOFF : Nat := 0x00

abbrev LCD_8BITMODE : Nat := 0x10
abbrev LCD_4BITMODE : Nat := 0x00
abbrev LCD_2LINE : Nat := 0x08
abbrev LCD_1LINE : Nat := 0x00
abbrev LCD_5x10DOTS : Nat := 0x04
abbrev LCD_5x8DOTS : Nat := 0x00
abbrev LCD_BACKLIGHT : Nat := 0x08
abbrev LCD_NOBACKLIGHT : Nat := 0x00

abbrev MASK_RS : Nat := 0x01
abbrev MASK_RW : Nat := 0x02
abbrev MASK_E : Nat := 0x04

/-! ## Machine arithmetic -/

/-- Conversion of an `int` value to `uint8_t`. -/
def u8 (x : Nat) : Nat := x % 256

/-- Bit pattern of `~x` for a 32-bit `int` operand. -/
def cnot (x : Nat) : Nat := 0xFFFFFFFF ^^^ x

/-! ## Data model -/

/-- One call made to the environment. -/
inductive Event where
  /-- The call `i2c_write_blocking(i2c_, addr, bytes, len, false)`. -/
  | write_blocking (addr : Nat) (bytes : List Nat)
  /-- The call `i2c_write_timeout_us(i2c_, addr, bytes, len, false, timeout_us)`. -/
  | write_timeout (addr : Nat) (bytes : List Nat) (timeout_us : Nat)
  /-- The call `sleep_ms(n)`. -/
  | sleep_ms (n : Nat)
  /-- The call `sleep_us(n)`. -/
  | sleep_us (n : Nat)
  deriving DecidableEq, Repr

/-- True for the two bus-write events, false for the delays. -/
def Event.isWrite : Event → Bool
  | .write_blocking _ _ => true
  | .write_timeout _ _ _ => true
  | .sleep_ms _ => false
  | .sleep_us _ => false

/-- Duration of an event in microseconds (zero for a bus write). -/
def Event.micros : Event → Nat
  | .sleep_ms n => 1000 * n
  | .sleep_us n => n
  | _ => 0

/-- The data members of class `Lcd20x4` (the bus handle `i2c_` is a fixed
pointer into the environment and is left out). -/
structure Lcd20x4 where
  addr_ : Nat
  rows_ : Nat
  cols_ : Nat
  cur_line_ : Nat
  cur_col_ : Nat
  initialized_ : Bool
  is_4bit_ : Bool
  display_control_ : Nat
  display_mode_ : Nat
  deriving DecidableEq, Repr

/-- The session together with the calls made to the environment so far. -/
structure Hw where
  lcd : Lcd20x4
  trace : List Event
  deriving DecidableEq, Repr

/-- Accessor `is_ready()`. -/
def is_ready (w : Hw) : Bool := w.lcd.initialized_

/-! ## Environment calls -/

def i2c_write_blocking (bytes : List Nat) (len : Nat) (w : Hw) : Hw :=
  { w with trace := w.trace ++ [Event.write_blocking w.lcd.addr_ (bytes.take len)] }

def i2c_write_timeout_us (bytes : List Nat) (len : Nat) (timeout_us : Nat) (w : Hw) : Hw :=
  { w with trace := w.trace ++ [Event.write_timeout w.lcd.addr_ (bytes.take len) timeout_us] }

def sleep_ms (n : Nat) (w : Hw) : Hw :=
  { w with trace := w.trace ++ [Event.sleep_ms n] }

def sleep_us (n : Nat) (w : Hw) : Hw :=
  { w with trace := w.trace ++ [Event.sleep_us n] }

/-! ## Field assignments -/

def set_initialized (b : Bool) (w : Hw) : Hw :=
  { w with lcd := { w.lcd with initialized_ := b } }

def set_display_control (v : Nat) (w : Hw) : Hw :=
  { w with lcd := { w.lcd with display_control_ := v } }

def set_display_mode (v : Nat) (w : Hw) : Hw :=
  { w with lcd := { w.lcd with display_mode_ := v } }

/-! ## The driver (`lcd20x4.cpp`) -/

/-- `Lcd20x4::write_raw`. -/
def write_raw (b : Nat) (w : Hw) : Hw :=
  i2c_write_blocking [b] 1 w

/-- `Lcd20x4::write_nibble`. -/
def write_nibble (n : Nat) (w : Hw) : Hw :=
  let buf := u8 (n ||| 0x04)
  let w := i2c_write_blocking [buf] 1 w
  let buf := n
  i2c_write_blocking [buf] 1 w

/-- `Lcd20x4::command_4bit`. -/
def command_4bit (command : Nat) (w : Hw) : Hw :=
  let byte := u8 (0x08 ||| (command &&& 0xf0))
  let w := write_nibble byte w
  let byte := u8 (0x08 ||| ((command <<< 4) &&& 0xf0))
  let w := write_nibble byte w
  if command ≤ 3 then sleep_ms 5 w else w

/-- `Lcd20x4::command`. -/
def command (command : Nat) (w : Hw) : Hw :=
  if w.lcd.is_4bit_ then command_4bit command w
  else
    let buf := [LCD_SETDDRAMADDR, command]
    i2c_write_timeout_us buf 2 10000 w

/-- Body of the loop of `Lcd20x4::write_4bit` for the byte `c = bytes[i]`.
Only bits 0 to 7 of `c & 0xf0` and `(c << 4) & 0xf0` reach `byte`, so the
signedness of `char` plays no role. -/
def write_4bit_step (w : Hw) (c : Nat) : Hw :=
  let byte := u8 (0x01 ||| 0x08 ||| (c &&& 0xf0))
  let w := write_nibble byte w
  let byte := u8 (0x01 ||| 0x08 ||| ((c <<< 4) &&& 0xf0))
  write_nibble byte w

/-- `Lcd20x4::write_4bit`: the loop runs over `bytes[0], ..., bytes[n-1]`. -/
def write_4bit (bytes : List Nat) (n : Nat) (w : Hw) : Hw :=
  (bytes.take n).foldl write_4bit_step w

/-- `Lcd20x4::write`. -/
def write (bytes : List Nat) (n : Nat) (w : Hw) : Hw :=
  if w.lcd.is_4bit_ then write_4bit bytes n w
  else
    let buf := LCD_SETCGRAMADDR :: bytes.take n
    if w.lcd.initialized_ then i2c_write_timeout_us buf (n + 1) 10000 w else w

/-- The C library function `strlen` on the bytes of a buffer: the number of
bytes before the first NUL. -/
def strlen (s : List Nat) : Nat := (s.takeWhile (fun c => c != 0)).length

/-- `Lcd20x4::print`. -/
def print (s : List Nat) (w : Hw) : Hw :=
  write s (strlen s) w

/-- `Lcd20x4::is_present`; `present` is the answer of `i2c_device_present`. -/
def is_present (present : Bool) (w : Hw) : Bool × Hw :=
  let f := present
  if !f then (f, set_initialized false w) else (f, w)

/-- `Lcd20x4::deinit`. -/
def deinit (w : Hw) : Hw := set_initialized false w

/-- `Lcd20x4::clear`. -/
def clear (w : Hw) : Hw :=
  let w := command LCD_CLEARDISPLAY w
  sleep_ms 2 w

/-- `Lcd20x4::home`. -/
def home (w : Hw) : Hw :=
  let w := command LCD_RETURNHOME w
  sleep_ms 2 w

/-- `Lcd20x4::setCursor`. -/
def setCursor (col row : Nat) (w : Hw) : Hw :=
  let addr := 0x80
  let addr := if row &&& 1 ≠ 0 then u8 (addr + 0x40) else addr
  let addr := if row &&& 2 ≠ 0 then u8 (addr + w.lcd.cols_) else addr
  let addr := u8 (addr + col)
  command addr w

/-- `Lcd20x4::display`. -/
def display (d : Bool) (w : Hw) : Hw :=
  let w :=
    if d then set_display_control (u8 (w.lcd.display_control_ ||| LCD_DISPLAYON)) w
    else set_display_control (u8 (w.lcd.display_control_ &&& cnot LCD_DISPLAYON)) w
  command (u8 (LCD_DISPLAYCONTROL ||| w.lcd.display_control_)) w

/-- `Lcd20x4::cursor`. -/
def cursor (c : Bool) (w : Hw) : Hw :=
  let w :=
    if c then set_display_control (u8 (w.lcd.display_control_ ||| LCD_CURSORON)) w
    else set_display_control (u8 (w.lcd.display_control_ &&& cnot LCD_CURSORON)) w
  command (u8 (LCD_DISPLAYCONTROL ||| w.lcd.display_control_)) w

/-- `Lcd20x4::blink`. -/
def blink (b : Bool) (w : Hw) : Hw :=
  let w :=
    if b then set_display_control (u8 (w.lcd.display_control_ ||| LCD_BLINKON)) w
    else set_display_control (u8 (w.lcd.display_control_ &&& cnot LCD_BLINKON)) w
  command (u8 (LCD_DISPLAYCONTROL ||| w.lcd.display_control_)) w

/-- `Lcd20x4::autoscroll`. -/
def autoscroll (s : Bool) (w : Hw) : Hw :=
  let w :=
    if s then set_display_control (u8 (w.lcd.display_control_ ||| LCD_ENTRYSHIFTINCREMENT)) w
    else set_display_control (u8 (w.lcd.display_control_ &&& cnot LCD_ENTRYSHIFTINCREMENT)) w
  command (u8 (LCD_DISPLAYCONTROL ||| w.lcd.display_control_)) w

/-- `Lcd20x4::create_char`. -/
def create_char (location : Nat) (charmap : List Nat) (w : Hw) : Hw :=
  let location := u8 (location &&& 0x07)
  let w := command (u8 (LCD_SETCGRAMADDR ||| (location <<< 3))) w
  if w.lcd.is_4bit_ then
    let w := sleep_us 40 w
    if w.lcd.initialized_ then write charmap 8 w else w
  else
    let buf := 0x40 :: charmap.take 8
    if w.lcd.initialized_ then write buf 9 w else w

/-- `Lcd20x4::backlight`. -/
def backlight (o : Bool) (w : Hw) : Hw :=
  let b := if o then 0x08 else 0x00
  write_raw b w

/-- `Lcd20x4::init_4bit`. -/
def init_4bit (w : Hw) : Hw :=
  let w := write_nibble LCD_FUNCTIONRESET w
  let w := sleep_ms 5 w
  let w := write_nibble LCD_FUNCTIONRESET w
  let w := sleep_ms 1 w
  let w := write_nibble LCD_FUNCTIONRESET w
  let w := sleep_ms 1 w
  let w := write_nibble LCD_FUNCTIONSET w
  let w := command LCD_DISPLAYCONTROL w
  let w := command LCD_BACKLIGHT w
  let w := command LCD_CLEARDISPLAY w
  let w := command LCD_RETURNHOME w
  let w := command (LCD_ENTRYMODESET ||| LCD_ENTRYLEFT ||| LCD_ENTRYSHIFTDECREMENT) w
  let w := command (LCD_DISPLAYCONTROL ||| LCD_DISPLAYON) w
  let w := command (LCD_DISPLAYCONTROL ||| LCD_DISPLAYON) w
  let w := command (LCD_FUNCTIONSET ||| LCD_2LINE) w
  set_initialized true w

/-- `Lcd20x4::init`; `present` is the answer of the presence probe. -/
def init (present : Bool) (w : Hw) : Hw :=
  let w := set_initialized false w
  let r := is_present present w
  let w := r.2
  if !r.1 then w
  else
    let w := write_raw 0 w
    let w := set_display_control LCD_DISPLAYON w
    let w :=
      if w.lcd.rows_ > 1 then set_display_control (u8 (w.lcd.display_control_ ||| LCD_2LINE)) w
      else w
    if w.lcd.is_4bit_ then init_4bit w
    else
      let w := sleep_ms 50 w
      let w := command (u8 (LCD_FUNCTIONSET ||| w.lcd.display_control_)) w
      let w := sleep_us 4500 w
      let w := command (u8 (LCD_FUNCTIONSET ||| w.lcd.display_control_)) w
      let w := sleep_us 150 w
      let w := command (u8 (LCD_FUNCTIONSET ||| w.lcd.display_control_)) w
      let w := command (u8 (LCD_FUNCTIONSET ||| w.lcd.display_control_)) w
      let w := set_display_mode (LCD_DISPLAYON ||| LCD_CURSOROFF ||| LCD_BLINKOFF) w
      let w := display true w
      let w := clear w
      let w := set_display_mode (LCD_ENTRYLEFT ||| LCD_ENTRYSHIFTDECREMENT) w
      let w := command (u8 (LCD_ENTRYMODESET ||| w.lcd.display_mode_)) w
      set_initialized true w

/-! ## Sample sessions -/

/-- A 20x4 display at bus address 0x27 in 8-bit mode, not yet initialised. -/
def sample8 : Hw := ⟨⟨0x27, 4, 20, 0, 0, false, false, 0, 0⟩, []⟩

/-- A 20x4 display at bus address 0x27 in 4-bit mode, not yet initialised. -/
def sample4 : Hw := ⟨⟨0x27, 4, 20, 0, 0, false, true, 0, 0⟩, []⟩

/-- The text "HELLO". -/
def hello : List Nat := [0x48, 0x45, 0x4C, 0x4C, 0x4F]

/-! ## Expected wire encodings, written out from the protocol description -/

/-- One nibble transaction: the byte with the enable bit set, then the same
byte with the enable bit cleared, as two 1-byte blocking writes. -/
def nibbleTx (a n : Nat) : List Event :=
  [Event.write_blocking a [n ||| 0x04], Event.write_blocking a [n]]

/-- One command in 8-bit mode: a single 2-byte timeout-bounded write. -/
def cmdTx8 (a c : Nat) : List Event :=
  [Event.write_timeout a [0x80, c] 10000]

/-- One command in 4-bit mode, without its settle: high nibble, then low
nibble shifted up, each with the backlight bit 0x08. -/
def cmdTx4 (a c : Nat) : List Event :=
  nibbleTx a (0x08 ||| (c &&& 0xF0)) ++ nibbleTx a (0x08 ||| ((c <<< 4) &&& 0xF0))

/-- One data byte in 4-bit mode: high nibble, then low nibble shifted up,
each with the register-select bit 0x01 and the backlight bit 0x08. -/
def dataTx4 (a c : Nat) : List Event :=
  nibbleTx a (0x01 ||| 0x08 ||| (c &&& 0xF0)) ++ nibbleTx a (0x01 ||| 0x08 ||| ((c <<< 4) &&& 0xF0))

/-- One command as the protocol encoder sends it: in 4-bit mode the two
nibbles followed by the 5 ms settle when the command value is at most 3, in
8-bit mode the single 2-byte write. -/
def cmdTx (is4 : Bool) (a c : Nat) : List Event :=
  if is4 then cmdTx4 a c ++ (if c ≤ 3 then [Event.sleep_ms 5] else []) else cmdTx8 a c

/-- Reconstruction of a byte from the two nibble bytes of a 4-bit transfer:
high nibble from the first, low nibble from the second. -/
def reconstruct (n1 n2 : Nat) : Nat := (n1 &&& 0xF0) ||| ((n2 &&& 0xF0) >>> 4)

/-- The trace of the 4-bit bring-up: three FUNCTIONRESET nibbles with their
delays, the FUNCTIONSET nibble, then the eight bring-up commands. -/
def bringup4 (a : Nat) : List Event :=
  nibbleTx a LCD_FUNCTIONRESET ++ [Event.sleep_ms 5] ++
  nibbleTx a LCD_FUNCTIONRESET ++ [Event.sleep_ms 1] ++
  nibbleTx a LCD_FUNCTIONRESET ++ [Event.sleep_ms 1] ++
  nibbleTx a LCD_FUNCTIONSET ++
  cmdTx4 a 0x08 ++
  cmdTx4 a 0x08 ++
  cmdTx4 a 0x01 ++ [Event.sleep_ms 5] ++
  cmdTx4 a 0x02 ++ [Event.sleep_ms 5] ++
  cmdTx4 a 0x06 ++
  cmdTx4 a 0x0C ++
  cmdTx4 a 0x0C ++
  cmdTx4 a 0x28

/-- The trace of the 8-bit bring-up after the raw settle byte, for a display
with `rows` rows. -/
def bringup8 (a rows : Nat) : List Event :=
  [ Event.sleep_ms 50,
    Event.write_timeout a [0x80, if rows > 1 then 0x2C else 0x24] 10000,
    Event.sleep_us 4500,
    Event.write_timeout a [0x80, if rows > 1 then 0x2C else 0x24] 10000,
    Event.sleep_us 150,
    Event.write_timeout a [0x80, if rows > 1 then 0x2C else 0x24] 10000,
    Event.write_timeout a [0x80, if rows > 1 then 0x2C else 0x24] 10000,
    Event.write_timeout a [0x80, 0x0C] 10000,
    Event.write_timeout a [0x80, 0x01] 10000,
    Event.sleep_ms 2,
    Event.write_timeout a [0x80, 0x06] 10000 ]

/-! ## The public interface as a transition system -/

/-- One call of a public member function of `Lcd20x4` with its arguments;
`init` and `is_present` carry the answer of the presence probe. -/
inductive Op where
  | init (present : Bool)
  | deinit
  | clear
  | home
  | setCursor (col row : Nat)
  | display (d : Bool)
  | cursor (c : Bool)
  | blink (b : Bool)
  | autoscroll (s : Bool)
  | backlight (o : Bool)
  | create_char (location : Nat) (charmap : List Nat)
  | print (s : List Nat)
  | is_present (present : Bool)
  | is_ready
  deriving DecidableEq, Repr

/-- Effect of one public call on the session and the trace. -/
def Op.run : Op → Hw → Hw
  | .init present, w => PicoLcd.init present w
  | .deinit, w => PicoLcd.deinit w
  | .clear, w => PicoLcd.clear w
  | .home, w => PicoLcd.home w
  | .setCursor col row, w => PicoLcd.setCursor col row w
  | .display d, w => PicoLcd.display d w
  | .cursor c, w => PicoLcd.cursor c w
  | .blink b, w => PicoLcd.blink b w
  | .autoscroll s, w => PicoLcd.autoscroll s w
  | .backlight o, w => PicoLcd.backlight o w
  | .create_char location charmap, w => PicoLcd.create_char location charmap w
  | .print s, w => PicoLcd.print s w
  | .is_present present, w => (PicoLcd.is_present present w).2
  | .is_ready, w => w

/-- Effect of a finite sequence of public calls, first call first. -/
def runOps (ops : List Op) (w : Hw) : Hw := ops.foldl (fun w op => op.run w) w

/-- Total duration, in microseconds, of the delays recorded after the last
bus write of a trace. -/
def trailingDelay (t : List Event) : Nat :=
  ((t.reverse.takeWhile (fun e => !e.isWrite)).map Event.micros).sum

/-! ## Arithmetic on bytes -/

theorem u8_of_lt {x : Nat} (h : x < 256) : u8 x = x := Nat.mod_eq_of_lt h

theorem u8_lt (x : Nat) : u8 x < 256 := Nat.mod_lt x (by decide)

theorem or_lt_256 {a b : Nat} (ha : a < 256) (hb : b < 256) : a ||| b < 256 :=
  Nat.or_lt_two_pow (n := 8) ha hb

theorem and_f0_lt (c : Nat) : c &&& 0xf0 < 256 :=
  Nat.lt_of_le_of_lt Nat.and_le_right (by decide)

theorem u8_nibble (k c : Nat) (hk : k < 256) : u8 (k ||| (c &&& 0xf0)) = k ||| (c &&& 0xf0) :=
  u8_of_lt (or_lt_256 hk (and_f0_lt c))

theorem u8_nibble_enable (k c : Nat) (hk : k < 256) :
    u8 (k ||| (c &&& 0xf0) ||| 0x04) = k ||| (c &&& 0xf0) ||| 0x04 :=
  u8_of_lt (or_lt_256 (or_lt_256 hk (and_f0_lt c)) (by decide))

set_option maxRecDepth 100000 in
theorem reconstruct_command_nibbles :
    ∀ b < 256, reconstruct (0x08 ||| (b &&& 0xF0)) (0x08 ||| ((b <<< 4) &&& 0xF0)) = b := by
  decide

set_option maxRecDepth 100000 in
theorem reconstruct_data_nibbles :
    ∀ b < 256,
      reconstruct (0x01 ||| 0x08 ||| (b &&& 0xF0)) (0x01 ||| 0x08 ||| ((b <<< 4) &&& 0xF0)) = b := by
  decide

theorem testBit_ge8 {x i : Nat} (hx : x < 256) (hi : 8 ≤ i) : x.testBit i = false :=
  Nat.testBit_lt_two_pow (Nat.lt_of_lt_of_le hx (Nat.pow_le_pow_right (n := 2) (by omega) hi))

theorem u8_set_bit (dc k i : Nat) (hdc : dc < 256) (hk : k < 8) :
    (u8 (dc ||| 2 ^ k)).testBit i = if i = k then true else dc.testBit i := by
  have h256 : (256 : Nat) = 2 ^ 8 := rfl
  unfold u8
  rw [h256, Nat.testBit_mod_two_pow, Nat.testBit_or, Nat.testBit_two_pow]
  by_cases hi : i < 8
  · by_cases hik : i = k
    · simp [hik, hk]
    · have : ¬ k = i := fun h => hik h.symm
      simp [hi, hik, this]
  · have hne : i ≠ k := by omega
    simp [hi, hne, testBit_ge8 hdc (Nat.le_of_not_lt hi)]

theorem u8_clear_bit (dc k i : Nat) (hdc : dc < 256) (hk : k < 8) :
    (u8 (dc &&& cnot (2 ^ k))).testBit i = if i = k then false else dc.testBit i := by
  have h256 : (256 : Nat) = 2 ^ 8 := rfl
  have hff : (0xFFFFFFFF : Nat) = 2 ^ 32 - 1 := rfl
  unfold u8 cnot
  rw [h256, Nat.testBit_mod_two_pow, Nat.testBit_and, Nat.testBit_xor, hff,
    Nat.testBit_two_pow_sub_one, Nat.testBit_two_pow]
  by_cases hi : i < 8
  · have hi32 : i < 32 := by omega
    by_cases hik : i = k
    · subst hik
      simp [hi, hi32]
    · have : ¬ k = i := fun h => hik h.symm
      simp [hi, hik, this, hi32]
  · have hne : i ≠ k := by omega
    simp [hi, hne, testBit_ge8 hdc (Nat.le_of_not_lt hi)]

/-! ## The protocol encoder in closed form -/

theorem write_nibble_eq (n : Nat) (w : Hw) :
    write_nibble n w =
      ⟨w.lcd, w.trace ++ [Event.write_blocking w.lcd.addr_ [u8 (n ||| 0x04)],
                          Event.write_blocking w.lcd.addr_ [n]]⟩ := by
  simp [write_nibble, i2c_write_blocking]

theorem command_4bit_eq (c : Nat) (w : Hw) :
    command_4bit c w =
      ⟨w.lcd, w.trace ++ (cmdTx4 w.lcd.addr_ c ++ (if c ≤ 3 then [Event.sleep_ms 5] else []))⟩ := by
  unfold command_4bit
  simp only [write_nibble_eq, u8_nibble 0x08 _ (by decide), u8_nibble_enable 0x08 _ (by decide)]
  by_cases h : c ≤ 3 <;> simp [h, sleep_ms, cmdTx4, nibbleTx]

theorem command_eq (c : Nat) (w : Hw) :
    command c w = ⟨w.lcd, w.trace ++ cmdTx w.lcd.is_4bit_ w.lcd.addr_ c⟩ := by
  unfold command
  cases h : w.lcd.is_4bit_
  · simp [cmdTx, cmdTx8, i2c_write_timeout_us]
  · simp [cmdTx, command_4bit_eq]

theorem write_4bit_step_eq (w : Hw) (c : Nat) :
    write_4bit_step w c = ⟨w.lcd, w.trace ++ dataTx4 w.lcd.addr_ c⟩ := by
  unfold write_4bit_step
  have h9 : (0x01 ||| 0x08 : Nat) = 9 := by decide
  simp only [write_nibble_eq, h9, u8_nibble 9 _ (by decide), u8_nibble_enable 9 _ (by decide)]
  simp [dataTx4, nibbleTx]

theorem foldl_write_4bit_step (l : List Nat) (w : Hw) :
    l.foldl write_4bit_step w = ⟨w.lcd, w.trace ++ l.flatMap (dataTx4 w.lcd.addr_)⟩ := by
  induction l generalizing w with
  | nil => simp
  | cons c cs ih => simp [List.foldl_cons, ih, write_4bit_step_eq, List.flatMap_cons]

theorem display_eq (d : Bool) (w : Hw) :
    display d w =
      ⟨{ w.lcd with display_control_ :=
            (if d then u8 (w.lcd.display_control_ ||| LCD_DISPLAYON)
             else u8 (w.lcd.display_control_ &&& cnot LCD_DISPLAYON)) },
       w.trace ++ cmdTx w.lcd.is_4bit_ w.lcd.addr_
         (LCD_DISPLAYCONTROL |||
            (if d then u8 (w.lcd.display_control_ ||| LCD_DISPLAYON)
             else u8 (w.lcd.display_control_ &&& cnot LCD_DISPLAYON)))⟩ := by
  cases d <;>
    simp [display, set_display_control, command_eq, u8_of_lt (or_lt_256 (a := 8) (by decide) (u8_lt _))]

theorem cursor_eq (c : Bool) (w : Hw) :
    cursor c w =
      ⟨{ w.lcd with display_control_ :=
            (if c then u8 (w.lcd.display_control_ ||| LCD_CURSORON)
             else u8 (w.lcd.display_control_ &&& cnot LCD_CURSORON)) },
       w.trace ++ cmdTx w.lcd.is_4bit_ w.lcd.addr_
         (LCD_DISPLAYCONTROL |||
            (if c then u8 (w.lcd.display_control_ ||| LCD_CURSORON)
             else u8 (w.lcd.display_control_ &&& cnot LCD_CURSORON)))⟩ := by
  cases c <;>
    simp [cursor, set_display_control, command_eq, u8_of_lt (or_lt_256 (a := 8) (by decide) (u8_lt _))]

theorem blink_eq (b : Bool) (w : Hw) :
    blink b w =
      ⟨{ w.lcd with display_control_ :=
            (if b then u8 (w.lcd.display_control_ ||| LCD_BLINKON)
             else u8 (w.lcd.display_control_ &&& cnot LCD_BLINKON)) },
       w.trace ++ cmdTx w.lcd.is_4bit_ w.lcd.addr_
         (LCD_DISPLAYCONTROL |||
            (if b then u8 (w.lcd.display_control_ ||| LCD_BLINKON)
             else u8 (w.lcd.display_control_ &&& cnot LCD_BLINKON)))⟩ := by
  cases b <;>
    simp [blink, set_display_control, command_eq, u8_of_lt (or_lt_256 (a := 8) (by decide) (u8_lt _))]

theorem toggled_bit (dc k i : Nat) (v : Bool) (hdc : dc < 256) (hk : k < 8) :
    (if v then u8 (dc ||| 2 ^ k) else u8 (dc &&& cnot (2 ^ k))).testBit i
      = if i = k then v else dc.testBit i := by
  cases v
  · simpa using u8_clear_bit dc k i hdc hk
  · simpa using u8_set_bit dc k i hdc hk

theorem init_4bit_eq (w : Hw) (h4 : w.lcd.is_4bit_ = true) :
    init_4bit w = ⟨{ w.lcd with initialized_ := true }, w.trace ++ bringup4 w.lcd.addr_⟩ := by
  simp [init_4bit, command_eq, write_nibble_eq, set_initialized, sleep_ms, cmdTx, bringup4,
    nibbleTx, u8, h4, LCD_FUNCTIONRESET, LCD_FUNCTIONSET, LCD_DISPLAYCONTROL, LCD_BACKLIGHT,
    LCD_CLEARDISPLAY, LCD_RETURNHOME, LCD_ENTRYMODESET, LCD_ENTRYLEFT, LCD_ENTRYSHIFTDECREMENT,
    LCD_DISPLAYON, LCD_2LINE]

theorem init_4bit_mode_eq (w : Hw) (h4 : w.lcd.is_4bit_ = true) :
    init true w =
      ⟨{ w.lcd with
          initialized_ := true,
          display_control_ :=
            (if w.lcd.rows_ > 1 then u8 (LCD_DISPLAYON ||| LCD_2LINE) else LCD_DISPLAYON) },
       w.trace ++ ([Event.write_blocking w.lcd.addr_ [0x00]] ++ bringup4 w.lcd.addr_)⟩ := by
  by_cases hr : w.lcd.rows_ > 1 <;>
    simp [init, is_present, set_initialized, write_raw, set_display_control, i2c_write_blocking,
      init_4bit_eq, h4, hr]

theorem filter_isWrite_nibbleTx (a n : Nat) :
    (nibbleTx a n).filter Event.isWrite = nibbleTx a n := by
  simp [nibbleTx, Event.isWrite]

theorem filter_isWrite_cmdTx4 (a c : Nat) :
    (cmdTx4 a c).filter Event.isWrite = cmdTx4 a c := by
  simp [cmdTx4, filter_isWrite_nibbleTx]

theorem filter_isWrite_dataTx4 (a c : Nat) :
    (dataTx4 a c).filter Event.isWrite = dataTx4 a c := by
  simp [dataTx4, filter_isWrite_nibbleTx]

theorem filter_isWrite_flatMap_dataTx4 (a : Nat) (s : List Nat) :
    (s.flatMap (dataTx4 a)).filter Event.isWrite = s.flatMap (dataTx4 a) := by
  induction s with
  | nil => simp
  | cons c cs ih => simp [List.flatMap_cons, ih, filter_isWrite_dataTx4]

theorem strlen_of_no_nul (s : List Nat) (h : 0 ∉ s) : strlen s = s.length := by
  unfold strlen
  have : s.takeWhile (fun c => c != 0) = s := by
    rw [List.takeWhile_eq_self_iff]
    intro x hx
    have : x ≠ 0 := fun h0 => h (h0 ▸ hx)
    simpa using this
  rw [this]

theorem print_eq (s : List Nat) (w : Hw) (hs : 0 ∉ s) :
    print s w =
      if w.lcd.is_4bit_ then ⟨w.lcd, w.trace ++ s.flatMap (dataTx4 w.lcd.addr_)⟩
      else if w.lcd.initialized_ then
        ⟨w.lcd, w.trace ++ [Event.write_timeout w.lcd.addr_ (0x40 :: s) 10000]⟩
      else w := by
  simp [print, write, write_4bit, strlen_of_no_nul s hs, foldl_write_4bit_step,
    i2c_write_timeout_us]

/-! ## The remaining operations in closed form -/

theorem clear_eq (w : Hw) :
    clear w = ⟨w.lcd, w.trace ++
      (cmdTx w.lcd.is_4bit_ w.lcd.addr_ LCD_CLEARDISPLAY ++ [Event.sleep_ms 2])⟩ := by
  simp [clear, command_eq, sleep_ms]

theorem home_eq (w : Hw) :
    home w = ⟨w.lcd, w.trace ++
      (cmdTx w.lcd.is_4bit_ w.lcd.addr_ LCD_RETURNHOME ++ [Event.sleep_ms 2])⟩ := by
  simp [home, command_eq, sleep_ms]

theorem setCursor_byte (cols col row : Nat) :
    u8 ((if row &&& 2 ≠ 0 then u8 ((if row &&& 1 ≠ 0 then u8 (0x80 + 0x40) else 0x80) + cols)
          else (if row &&& 1 ≠ 0 then u8 (0x80 + 0x40) else 0x80)) + col)
      = (0x80 + (if row &&& 1 ≠ 0 then 0x40 else 0) + (if row &&& 2 ≠ 0 then cols else 0) + col)
          % 256 := by
  unfold u8
  split_ifs <;> omega

theorem setCursor_eq (col row : Nat) (w : Hw) :
    setCursor col row w = ⟨w.lcd, w.trace ++ cmdTx w.lcd.is_4bit_ w.lcd.addr_
      ((0x80 + (if row &&& 1 ≠ 0 then 0x40 else 0)
          + (if row &&& 2 ≠ 0 then w.lcd.cols_ else 0) + col) % 256)⟩ := by
  simp only [setCursor, command_eq, setCursor_byte]

theorem autoscroll_eq_blink (s : Bool) (w : Hw) : autoscroll s w = blink s w := rfl

theorem backlight_eq (o : Bool) (w : Hw) :
    backlight o w =
      ⟨w.lcd, w.trace ++ [Event.write_blocking w.lcd.addr_ [if o then 0x08 else 0x00]]⟩ := by
  simp [backlight, write_raw, i2c_write_blocking]

theorem write_eq (bytes : List Nat) (n : Nat) (w : Hw) :
    write bytes n w =
      if w.lcd.is_4bit_ then ⟨w.lcd, w.trace ++ (bytes.take n).flatMap (dataTx4 w.lcd.addr_)⟩
      else if w.lcd.initialized_ then
        ⟨w.lcd, w.trace ++
          [Event.write_timeout w.lcd.addr_ ((0x40 :: bytes.take n).take (n + 1)) 10000]⟩
      else w := by
  simp [write, write_4bit, foldl_write_4bit_step, i2c_write_timeout_us]

theorem write_lcd (bytes : List Nat) (n : Nat) (w : Hw) : (write bytes n w).lcd = w.lcd := by
  rw [write_eq]
  split_ifs <;> rfl

theorem cgram_byte (location : Nat) :
    u8 (LCD_SETCGRAMADDR ||| (u8 (location &&& 0x07) <<< 3)) = 0x40 + 8 * (location % 8) := by
  have h7 : location &&& 0x07 = location % 8 := Nat.and_pow_two_sub_one_eq_mod location 3
  have hk : ∀ k < 8, u8 (0x40 ||| (u8 k <<< 3)) = 0x40 + 8 * k := by decide
  rw [h7]
  exact hk _ (Nat.mod_lt _ (by decide))

theorem create_char_eq (location : Nat) (charmap : List Nat) (w : Hw) :
    create_char location charmap w =
      ⟨w.lcd, w.trace ++
        (cmdTx w.lcd.is_4bit_ w.lcd.addr_ (0x40 + 8 * (location % 8)) ++
          (if w.lcd.is_4bit_ then
            [Event.sleep_us 40] ++
              (if w.lcd.initialized_ then (charmap.take 8).flatMap (dataTx4 w.lcd.addr_) else [])
           else if w.lcd.initialized_ then
            [Event.write_timeout w.lcd.addr_ (0x40 :: 0x40 :: charmap.take 8) 10000]
           else []))⟩ := by
  unfold create_char
  simp only [cgram_byte, command_eq, write_eq]
  cases h4 : w.lcd.is_4bit_ <;> cases hi : w.lcd.initialized_ <;>
    simp [sleep_us, h4, hi, List.take_take]

theorem init_absent_eq (w : Hw) :
    init false w = ⟨{ w.lcd with initialized_ := false }, w.trace⟩ := by
  simp [init, is_present, set_initialized]

theorem init_8bit_mode_eq (w : Hw) (h8 : w.lcd.is_4bit_ = false) :
    init true w =
      ⟨{ w.lcd with
          initialized_ := true,
          display_control_ := (if w.lcd.rows_ > 1 then 0x0C else 0x04),
          display_mode_ := 0x02 },
       w.trace ++ ([Event.write_blocking w.lcd.addr_ [0x00]] ++ bringup8 w.lcd.addr_ w.lcd.rows_)⟩ := by
  by_cases hr : w.lcd.rows_ > 1 <;>
    simp [init, is_present, set_initialized, write_raw, set_display_control, set_display_mode,
      display, clear, command, i2c_write_blocking, i2c_write_timeout_us, sleep_ms, sleep_us,
      u8, bringup8, h8, hr] <;> decide

/-! ## Further facts on bytes and encodings -/

set_option maxRecDepth 100000 in
theorem bit7_iff : ∀ b < 256, (b &&& 0x80 = 0x80 ↔ 128 ≤ b) := by
  decide

set_option maxRecDepth 100000 in
theorem nibble_control_bits :
    ∀ c < 256,
      ((0x08 ||| (c &&& 0xF0)) ||| 0x04) &&& 0x03 = 0
      ∧ (0x08 ||| (c &&& 0xF0)) &&& 0x03 = 0
      ∧ ((0x08 ||| ((c <<< 4) &&& 0xF0)) ||| 0x04) &&& 0x03 = 0
      ∧ (0x08 ||| ((c <<< 4) &&& 0xF0)) &&& 0x03 = 0 := by
  decide

theorem low_nibble_toggle :
    ∀ dc < 16, ∀ m ∈ [1, 2, 4],
      u8 (dc ||| m) ≤ 15 ∧ u8 (dc &&& cnot m) ≤ 15 := by
  decide

theorem display_control_opcode : ∀ dc < 16, 8 ≤ 8 ||| dc ∧ 8 ||| dc ≤ 15 := by
  decide

theorem cmdTx_injective (is4 : Bool) (a b1 b2 : Nat) (h1 : b1 < 256) (h2 : b2 < 256)
    (h : cmdTx is4 a b1 = cmdTx is4 a b2) : b1 = b2 := by
  cases is4
  · simpa [cmdTx, cmdTx8] using h
  · simp only [cmdTx, cmdTx4, nibbleTx, if_true, List.cons_append, List.nil_append,
      List.cons.injEq, Event.write_blocking.injEq, true_and] at h
    have e1 := reconstruct_command_nibbles b1 h1
    have e2 := reconstruct_command_nibbles b2 h2
    rw [← e1, ← e2, h.2.1.1, h.2.2.2.1.1]

/-! ## Preservation of the bound on the display-control mirror -/

theorem toggle_le (dc m : Nat) (v : Bool) (h : dc ≤ 15) (hm : m ∈ [1, 2, 4]) :
    (if v then u8 (dc ||| m) else u8 (dc &&& cnot m)) ≤ 15 := by
  have := low_nibble_toggle dc (Nat.lt_succ_of_le h) m hm
  cases v
  · simpa using this.2
  · simpa using this.1

theorem init_display_control_le (p : Bool) (w : Hw)
    (h : p = true ∨ w.lcd.display_control_ ≤ 15) :
    (init p w).lcd.display_control_ ≤ 15 := by
  cases p
  · rcases h with h | h
    · cases h
    · simpa [init_absent_eq] using h
  · cases h4 : w.lcd.is_4bit_
    · rw [init_8bit_mode_eq w h4]
      by_cases hr : w.lcd.rows_ > 1 <;> simp [hr]
    · rw [init_4bit_mode_eq w h4]
      by_cases hr : w.lcd.rows_ > 1 <;> simp [hr, u8] <;> decide

theorem run_display_control_le (op : Op) (w : Hw) (h : w.lcd.display_control_ ≤ 15) :
    (op.run w).lcd.display_control_ ≤ 15 := by
  cases op with
  | init present => exact init_display_control_le present w (Or.inr h)
  | deinit => simpa [Op.run, deinit, set_initialized] using h
  | clear => simpa [Op.run, clear_eq] using h
  | home => simpa [Op.run, home_eq] using h
  | setCursor c r => simpa [Op.run, setCursor_eq] using h
  | display d =>
    simpa [Op.run, display_eq] using toggle_le w.lcd.display_control_ 4 d h (by decide)
  | cursor c =>
    simpa [Op.run, cursor_eq] using toggle_le w.lcd.display_control_ 2 c h (by decide)
  | blink b =>
    simpa [Op.run, blink_eq] using toggle_le w.lcd.display_control_ 1 b h (by decide)
  | autoscroll a =>
    simpa [Op.run, autoscroll_eq_blink, blink_eq] using
      toggle_le w.lcd.display_control_ 1 a h (by decide)
  | backlight o => simpa [Op.run, backlight_eq] using h
  | create_char l cm => simpa [Op.run, create_char_eq] using h
  | print t => simpa [Op.run, print, write_lcd] using h
  | is_present present =>
    cases present <;> simpa [Op.run, is_present, set_initialized] using h
  | is_ready => simpa [Op.run] using h

theorem runOps_display_control_le (ops : List Op) (w : Hw) (h : w.lcd.display_control_ ≤ 15) :
    (runOps ops w).lcd.display_control_ ≤ 15 := by
  induction ops generalizing w with
  | nil => simpa [runOps] using h
  | cons op rest ih =>
    have := ih (op.run w) (run_display_control_le op w h)
    simpa [runOps] using this

/-! ## Initialisation -/

/-- C1: in 8-bit mode, whatever the row count and the prior state, `init` with
a succeeding probe appends exactly: the raw byte 0x00, 50 ms, the function-set
command (FUNCTIONSET with DISPLAYON, and 2LINE exactly when rows > 1) with
4500 us, the same with 150 us, the same twice with no delay, display control
0x0C, clear display 0x01 with 2 ms, entry mode 0x06; every command is one
2-byte write starting with 0x80; afterwards `is_ready` holds. -/
theorem init_8bit_trace (w : Hw) (h8 : w.lcd.is_4bit_ = false) :
    (init true w).trace = w.trace ++
      [ Event.write_blocking w.lcd.addr_ [0x00],
        Event.sleep_ms 50,
        Event.write_timeout w.lcd.addr_
          [0x80, LCD_FUNCTIONSET ||| (if w.lcd.rows_ > 1 then LCD_DISPLAYON ||| LCD_2LINE else LCD_DISPLAYON)] 10000,
        Event.sleep_us 4500,
        Event.write_timeout w.lcd.addr_
          [0x80, LCD_FUNCTIONSET ||| (if w.lcd.rows_ > 1 then LCD_DISPLAYON ||| LCD_2LINE else LCD_DISPLAYON)] 10000,
        Event.sleep_us 150,
        Event.write_timeout w.lcd.addr_
          [0x80, LCD_FUNCTIONSET ||| (if w.lcd.rows_ > 1 then LCD_DISPLAYON ||| LCD_2LINE else LCD_DISPLAYON)] 10000,
        Event.write_timeout w.lcd.addr_
          [0x80, LCD_FUNCTIONSET ||| (if w.lcd.rows_ > 1 then LCD_DISPLAYON ||| LCD_2LINE else LCD_DISPLAYON)] 10000,
        Event.write_timeout w.lcd.addr_
          [0x80, LCD_DISPLAYCONTROL ||| LCD_DISPLAYON ||| LCD_CURSOROFF ||| LCD_BLINKOFF] 10000,
        Event.write_timeout w.lcd.addr_ [0x80, LCD_CLEARDISPLAY] 10000,
        Event.sleep_ms 2,
        Event.write_timeout w.lcd.addr_ [0x80, LCD_ENTRYMODESET ||| LCD_ENTRYLEFT] 10000 ]
    ∧ LCD_ENTRYMODESET ||| LCD_ENTRYLEFT = 0x06
    ∧ Event.micros (Event.sleep_us 4500) ≥ 4500
    ∧ Event.micros (Event.sleep_ms 2) ≥ 2000
    ∧ is_ready (init true w) = true := by
  by_cases hr : w.lcd.rows_ > 1 <;>
    simp [init, is_present, set_initialized, write_raw, set_display_control, set_display_mode,
      display, clear, command, i2c_write_blocking, i2c_write_timeout_us, sleep_ms, sleep_us,
      is_ready, u8, Event.micros, h8, hr] <;> decide

theorem init_8bit_trace_witness :
    sample8.lcd.is_4bit_ = false ∧
    (init true sample8).trace =
      [ Event.write_blocking 0x27 [0x00], Event.sleep_ms 50,
        Event.write_timeout 0x27 [0x80, 0x2C] 10000, Event.sleep_us 4500,
        Event.write_timeout 0x27 [0x80, 0x2C] 10000, Event.sleep_us 150,
        Event.write_timeout 0x27 [0x80, 0x2C] 10000,
        Event.write_timeout 0x27 [0x80, 0x2C] 10000,
        Event.write_timeout 0x27 [0x80, 0x0C] 10000,
        Event.write_timeout 0x27 [0x80, 0x01] 10000, Event.sleep_ms 2,
        Event.write_timeout 0x27 [0x80, 0x06] 10000 ] ∧
    is_ready (init true sample8) = true :=
  ⟨rfl, (init_8bit_trace sample8 rfl).1, (init_8bit_trace sample8 rfl).2.2.2.2⟩

/-- C2: in 4-bit mode `init_4bit` appends exactly: the FUNCTIONRESET nibble
0x30 with 5 ms, again with 1 ms, again with 1 ms, the FUNCTIONSET nibble 0x20,
then the two-nibble commands 0x08, 0x08, 0x01 (with the 5 ms settle), 0x02
(with the 5 ms settle), 0x06, 0x0C, 0x0C, 0x28, and nothing else; the second
conjunct spells the same trace out byte by byte; afterwards `is_ready` holds. -/
theorem init_4bit_trace (w : Hw) (h4 : w.lcd.is_4bit_ = true) :
    (init_4bit w).trace = w.trace ++
      (nibbleTx w.lcd.addr_ LCD_FUNCTIONRESET ++ [Event.sleep_ms 5] ++
       nibbleTx w.lcd.addr_ LCD_FUNCTIONRESET ++ [Event.sleep_ms 1] ++
       nibbleTx w.lcd.addr_ LCD_FUNCTIONRESET ++ [Event.sleep_ms 1] ++
       nibbleTx w.lcd.addr_ LCD_FUNCTIONSET ++
       cmdTx4 w.lcd.addr_ 0x08 ++
       cmdTx4 w.lcd.addr_ 0x08 ++
       cmdTx4 w.lcd.addr_ 0x01 ++ [Event.sleep_ms 5] ++
       cmdTx4 w.lcd.addr_ 0x02 ++ [Event.sleep_ms 5] ++
       cmdTx4 w.lcd.addr_ 0x06 ++
       cmdTx4 w.lcd.addr_ 0x0C ++
       cmdTx4 w.lcd.addr_ 0x0C ++
       cmdTx4 w.lcd.addr_ 0x28)
    ∧ (init_4bit w).trace = w.trace ++
      [ Event.write_blocking w.lcd.addr_ [0x34], Event.write_blocking w.lcd.addr_ [0x30],
        Event.sleep_ms 5,
        Event.write_blocking w.lcd.addr_ [0x34], Event.write_blocking w.lcd.addr_ [0x30],
        Event.sleep_ms 1,
        Event.write_blocking w.lcd.addr_ [0x34], Event.write_blocking w.lcd.addr_ [0x30],
        Event.sleep_ms 1,
        Event.write_blocking w.lcd.addr_ [0x24], Event.write_blocking w.lcd.addr_ [0x20],
        Event.write_blocking w.lcd.addr_ [0x0C], Event.write_blocking w.lcd.addr_ [0x08],
        Event.write_blocking w.lcd.addr_ [0x8C], Event.write_blocking w.lcd.addr_ [0x88],
        Event.write_blocking w.lcd.addr_ [0x0C], Event.write_blocking w.lcd.addr_ [0x08],
        Event.write_blocking w.lcd.addr_ [0x8C], Event.write_blocking w.lcd.addr_ [0x88],
        Event.write_blocking w.lcd.addr_ [0x0C], Event.write_blocking w.lcd.addr_ [0x08],
        Event.write_blocking w.lcd.addr_ [0x1C], Event.write_blocking w.lcd.addr_ [0x18],
        Event.sleep_ms 5,
        Event.write_blocking w.lcd.addr_ [0x0C], Event.write_blocking w.lcd.addr_ [0x08],
        Event.write_blocking w.lcd.addr_ [0x2C], Event.write_blocking w.lcd.addr_ [0x28],
        Event.sleep_ms 5,
        Event.write_blocking w.lcd.addr_ [0x0C], Event.write_blocking w.lcd.addr_ [0x08],
        Event.write_blocking w.lcd.addr_ [0x6C], Event.write_blocking w.lcd.addr_ [0x68],
        Event.write_blocking w.lcd.addr_ [0x0C], Event.write_blocking w.lcd.addr_ [0x08],
        Event.write_blocking w.lcd.addr_ [0xCC], Event.write_blocking w.lcd.addr_ [0xC8],
        Event.write_blocking w.lcd.addr_ [0x0C], Event.write_blocking w.lcd.addr_ [0x08],
        Event.write_blocking w.lcd.addr_ [0xCC], Event.write_blocking w.lcd.addr_ [0xC8],
        Event.write_blocking w.lcd.addr_ [0x2C], Event.write_blocking w.lcd.addr_ [0x28],
        Event.write_blocking w.lcd.addr_ [0x8C], Event.write_blocking w.lcd.addr_ [0x88] ]
    ∧ is_ready (init_4bit w) = true := by
  simp [init_4bit, command, command_4bit, write_nibble, set_initialized, i2c_write_blocking,
    sleep_ms, is_ready, u8, nibbleTx, cmdTx4, h4, LCD_FUNCTIONRESET, LCD_FUNCTIONSET,
    LCD_DISPLAYCONTROL, LCD_BACKLIGHT, LCD_CLEARDISPLAY, LCD_RETURNHOME, LCD_ENTRYMODESET,
    LCD_ENTRYLEFT, LCD_ENTRYSHIFTDECREMENT, LCD_DISPLAYON, LCD_2LINE]
  decide

theorem init_4bit_trace_witness :
    sample4.lcd.is_4bit_ = true ∧
    (init_4bit sample4).trace =
      nibbleTx 0x27 0x30 ++ [Event.sleep_ms 5] ++
      nibbleTx 0x27 0x30 ++ [Event.sleep_ms 1] ++
      nibbleTx 0x27 0x30 ++ [Event.sleep_ms 1] ++
      nibbleTx 0x27 0x20 ++
      cmdTx4 0x27 0x08 ++ cmdTx4 0x27 0x08 ++
      cmdTx4 0x27 0x01 ++ [Event.sleep_ms 5] ++
      cmdTx4 0x27 0x02 ++ [Event.sleep_ms 5] ++
      cmdTx4 0x27 0x06 ++ cmdTx4 0x27 0x0C ++ cmdTx4 0x27 0x0C ++ cmdTx4 0x27 0x28 ∧
    is_ready (init_4bit sample4) = true :=
  ⟨rfl, (init_4bit_trace sample4 rfl).1, (init_4bit_trace sample4 rfl).2.2⟩

/-- C3: whatever the prior state and the wire mode, `init` with a failing probe
appends nothing to the trace (no bus write, no delay) and leaves `is_ready`
false. -/
theorem init_absent (w : Hw) :
    (init false w).trace = w.trace ∧ is_ready (init false w) = false := by
  simp [init, is_present, set_initialized, is_ready]

/-! ## Cursor addressing -/

/-- C4: whenever 0x80 + (0x40 if row&1) + (cols if row&2) + col fits in one
byte, `setCursor col row` transmits exactly one command carrying that byte and
changes no session field; with 20 columns the positions (0,0), (0,1), (0,2),
(0,3), (5,2) give the command bytes 0x80, 0xC0, 0x94, 0xD4, 0x99. -/
theorem setCursor_address (w : Hw) (col row : Nat)
    (hfit : 0x80 + (if row &&& 1 ≠ 0 then 0x40 else 0)
              + (if row &&& 2 ≠ 0 then w.lcd.cols_ else 0) + col < 256) :
    (setCursor col row w).lcd = w.lcd
    ∧ (setCursor col row w).trace = w.trace ++
        cmdTx w.lcd.is_4bit_ w.lcd.addr_
          (0x80 + (if row &&& 1 ≠ 0 then 0x40 else 0)
             + (if row &&& 2 ≠ 0 then w.lcd.cols_ else 0) + col)
    ∧ (w.lcd.cols_ = 20 →
        (setCursor 0 0 w).trace = w.trace ++ cmdTx w.lcd.is_4bit_ w.lcd.addr_ 0x80
        ∧ (setCursor 0 1 w).trace = w.trace ++ cmdTx w.lcd.is_4bit_ w.lcd.addr_ 0xC0
        ∧ (setCursor 0 2 w).trace = w.trace ++ cmdTx w.lcd.is_4bit_ w.lcd.addr_ 0x94
        ∧ (setCursor 0 3 w).trace = w.trace ++ cmdTx w.lcd.is_4bit_ w.lcd.addr_ 0xD4
        ∧ (setCursor 5 2 w).trace = w.trace ++ cmdTx w.lcd.is_4bit_ w.lcd.addr_ 0x99) := by
  refine ⟨by simp [setCursor, command_eq], ?_, ?_⟩
  · have hbyte : (if row &&& 2 ≠ 0 then
          u8 ((if row &&& 1 ≠ 0 then u8 (0x80 + 0x40) else 0x80) + w.lcd.cols_)
        else (if row &&& 1 ≠ 0 then u8 (0x80 + 0x40) else 0x80)) + col
        = 0x80 + (if row &&& 1 ≠ 0 then 0x40 else 0)
            + (if row &&& 2 ≠ 0 then w.lcd.cols_ else 0) + col := by
      unfold u8
      split_ifs at hfit ⊢ <;> omega
    simp only [setCursor, command_eq]
    rw [hbyte, u8_of_lt hfit]
  · intro h20
    simp [setCursor, command_eq, h20, u8]

theorem setCursor_address_witness :
    (0x80 + (if 2 &&& 1 ≠ 0 then 0x40 else 0)
        + (if 2 &&& 2 ≠ 0 then sample8.lcd.cols_ else 0) + 5 < 256)
    ∧ (setCursor 5 2 sample8).lcd = sample8.lcd
    ∧ (setCursor 5 2 sample8).trace = [Event.write_timeout 0x27 [0x80, 0x99] 10000]
    ∧ (setCursor 0 3 sample4).trace =
        [Event.write_blocking 0x27 [0xDC], Event.write_blocking 0x27 [0xD8],
         Event.write_blocking 0x27 [0x4C], Event.write_blocking 0x27 [0x48]] :=
  ⟨by decide, (setCursor_address sample8 5 2 (by decide)).1,
    (setCursor_address sample8 5 2 (by decide)).2.1,
    ((setCursor_address sample4 0 0 (by decide)).2.2 rfl).2.2.2.1⟩

/-! ## Nibble encoding -/

/-- C5: for every byte b, `command_4bit b` emits the two nibble transactions
n1 = 0x08 | (b & 0xF0) and n2 = 0x08 | ((b << 4) & 0xF0) (then only its settle),
`write_4bit` of the one byte b emits the two nibble transactions
m1 = 0x09 | (b & 0xF0) and m2 = 0x09 | ((b << 4) & 0xF0), and in both cases
(first & 0xF0) | ((second & 0xF0) >> 4) gives back b. -/
theorem nibble_roundtrip (b : Nat) (hb : b < 256) (w : Hw) :
    (command_4bit b w).trace = w.trace ++
        (nibbleTx w.lcd.addr_ (0x08 ||| (b &&& 0xF0)) ++
         nibbleTx w.lcd.addr_ (0x08 ||| ((b <<< 4) &&& 0xF0)) ++
         (if b ≤ 3 then [Event.sleep_ms 5] else []))
    ∧ reconstruct (0x08 ||| (b &&& 0xF0)) (0x08 ||| ((b <<< 4) &&& 0xF0)) = b
    ∧ (write_4bit [b] 1 w).trace = w.trace ++
        (nibbleTx w.lcd.addr_ (0x01 ||| 0x08 ||| (b &&& 0xF0)) ++
         nibbleTx w.lcd.addr_ (0x01 ||| 0x08 ||| ((b <<< 4) &&& 0xF0)))
    ∧ reconstruct (0x01 ||| 0x08 ||| (b &&& 0xF0)) (0x01 ||| 0x08 ||| ((b <<< 4) &&& 0xF0)) = b := by
  refine ⟨?_, reconstruct_command_nibbles b hb, ?_, reconstruct_data_nibbles b hb⟩
  · simp [command_4bit_eq, cmdTx4]
  · simp [write_4bit, write_4bit_step_eq, dataTx4]

theorem nibble_roundtrip_witness :
    (0xA5 : Nat) < 256
    ∧ (command_4bit 0xA5 sample4).trace =
        [Event.write_blocking 0x27 [0xAC], Event.write_blocking 0x27 [0xA8],
         Event.write_blocking 0x27 [0x5C], Event.write_blocking 0x27 [0x58]]
    ∧ reconstruct 0xA8 0x58 = 0xA5
    ∧ (write_4bit [0xA5] 1 sample4).trace =
        [Event.write_blocking 0x27 [0xAD], Event.write_blocking 0x27 [0xA9],
         Event.write_blocking 0x27 [0x5D], Event.write_blocking 0x27 [0x59]]
    ∧ reconstruct 0xA9 0x59 = 0xA5 :=
  ⟨by decide, (nibble_roundtrip 0xA5 (by decide) sample4).1,
    (nibble_roundtrip 0xA5 (by decide) sample4).2.1,
    (nibble_roundtrip 0xA5 (by decide) sample4).2.2.1,
    (nibble_roundtrip 0xA5 (by decide) sample4).2.2.2⟩

/-! ## Flag toggles -/

/-- C6: for every byte value of the mirror `display_control_` and every v,
`display v`, `cursor v` and `blink v` each set their own bit (bit 2 = 0x04,
bit 1 = 0x02, bit 0 = 0x01) of the mirror to v, leave all other bits of the
mirror and all other fields unchanged, and transmit exactly one command,
DISPLAYCONTROL | updated mirror; after `display true; cursor true; blink true`
bits 2, 1 and 0 of the mirror are all set. -/
theorem flag_toggles (w : Hw) (v : Bool) (hdc : w.lcd.display_control_ < 256) :
    (LCD_DISPLAYON = 2 ^ 2 ∧ LCD_CURSORON = 2 ^ 1 ∧ LCD_BLINKON = 2 ^ 0)
    ∧ ((∀ i, (display v w).lcd.display_control_.testBit i
            = if i = 2 then v else w.lcd.display_control_.testBit i)
       ∧ (display v w).lcd
            = { w.lcd with display_control_ := (display v w).lcd.display_control_ }
       ∧ (display v w).trace = w.trace ++ cmdTx w.lcd.is_4bit_ w.lcd.addr_
            (LCD_DISPLAYCONTROL ||| (display v w).lcd.display_control_))
    ∧ ((∀ i, (cursor v w).lcd.display_control_.testBit i
            = if i = 1 then v else w.lcd.display_control_.testBit i)
       ∧ (cursor v w).lcd
            = { w.lcd with display_control_ := (cursor v w).lcd.display_control_ }
       ∧ (cursor v w).trace = w.trace ++ cmdTx w.lcd.is_4bit_ w.lcd.addr_
            (LCD_DISPLAYCONTROL ||| (cursor v w).lcd.display_control_))
    ∧ ((∀ i, (blink v w).lcd.display_control_.testBit i
            = if i = 0 then v else w.lcd.display_control_.testBit i)
       ∧ (blink v w).lcd
            = { w.lcd with display_control_ := (blink v w).lcd.display_control_ }
       ∧ (blink v w).trace = w.trace ++ cmdTx w.lcd.is_4bit_ w.lcd.addr_
            (LCD_DISPLAYCONTROL ||| (blink v w).lcd.display_control_))
    ∧ ((blink true (cursor true (display true w))).lcd.display_control_.testBit 2 = true
       ∧ (blink true (cursor true (display true w))).lcd.display_control_.testBit 1 = true
       ∧ (blink true (cursor true (display true w))).lcd.display_control_.testBit 0 = true) := by
  refine ⟨⟨rfl, rfl, rfl⟩, ⟨?_, ?_, ?_⟩, ⟨?_, ?_, ?_⟩, ⟨?_, ?_, ?_⟩, ?_⟩
  · intro i
    simpa [display_eq] using toggled_bit w.lcd.display_control_ 2 i v hdc (by decide)
  · simp [display_eq]
  · simp [display_eq]
  · intro i
    simpa [cursor_eq] using toggled_bit w.lcd.display_control_ 1 i v hdc (by decide)
  · simp [cursor_eq]
  · simp [cursor_eq]
  · intro i
    simpa [blink_eq] using toggled_bit w.lcd.display_control_ 0 i v hdc (by decide)
  · simp [blink_eq]
  · simp [blink_eq]
  · have h1 : (display true w).lcd.display_control_ < 256 := by
      simp [display_eq, u8_lt]
    have h2 : (cursor true (display true w)).lcd.display_control_ < 256 := by
      simp [cursor_eq, u8_lt]
    have b0 := fun i => toggled_bit (cursor true (display true w)).lcd.display_control_ 0 i true h2
      (by decide)
    have b1 := fun i => toggled_bit (display true w).lcd.display_control_ 1 i true h1 (by decide)
    have b2 := fun i => toggled_bit w.lcd.display_control_ 2 i true hdc (by decide)
    have e0 : (blink true (cursor true (display true w))).lcd.display_control_
        = u8 ((cursor true (display true w)).lcd.display_control_ ||| 2 ^ 0) := by
      simp [blink_eq]
    have e1 : (cursor true (display true w)).lcd.display_control_
        = u8 ((display true w).lcd.display_control_ ||| 2 ^ 1) := by
      simp [cursor_eq]
    have e2 : (display true w).lcd.display_control_ = u8 (w.lcd.display_control_ ||| 2 ^ 2) := by
      simp [display_eq]
    simp only [if_true] at b0 b1 b2
    refine ⟨?_, ?_, ?_⟩
    · rw [e0, b0 2, e1, b1 2, e2, b2 2]; simp
    · rw [e0, b0 1, e1, b1 1]; simp
    · rw [e0, b0 0]; simp

theorem flag_toggles_witness :
    sample8.lcd.display_control_ < 256
    ∧ (cursor true (init true sample8)).lcd.display_control_ = 0x0E
    ∧ (blink true (cursor true (display true sample8))).lcd.display_control_.testBit 2 = true
    ∧ (blink true (cursor true (display true sample8))).lcd.display_control_.testBit 1 = true
    ∧ (blink true (cursor true (display true sample8))).lcd.display_control_.testBit 0 = true :=
  ⟨by decide, by decide, (flag_toggles sample8 true (by decide)).2.2.2.2⟩

/-- C7: what the code does. `autoscroll s` is the same function as `blink s`:
it rewrites bit 0 of `display_control_` and sends a display-control command,
and never touches the entry-mode mirror `display_mode_`. On an initialised
8-bit 20x4 session `autoscroll true` sends [0x80, 0x0D], turns
`display_control_` from 0x0C into 0x0D and leaves `display_mode_` at 0x02. -/
theorem autoscroll_is_blink (s : Bool) (w : Hw) :
    autoscroll s w = blink s w
    ∧ (autoscroll s w).lcd.display_mode_ = w.lcd.display_mode_
    ∧ (init true sample8).lcd.display_control_ = 0x0C
    ∧ (init true sample8).lcd.display_mode_ = 0x02
    ∧ (autoscroll true (init true sample8)).trace
        = (init true sample8).trace ++ [Event.write_timeout 0x27 [0x80, 0x0D] 10000]
    ∧ (autoscroll true (init true sample8)).lcd.display_control_ = 0x0D
    ∧ (autoscroll true (init true sample8)).lcd.display_mode_ = 0x02 := by
  refine ⟨rfl, ?_, by decide, by decide, by decide, by decide, by decide⟩
  cases s <;> simp [autoscroll, set_display_control, command_eq]

/-! ## Printing -/

/-- C8: on an initialised session and for a text s without a NUL byte,
`print s` changes no session field; in 8-bit mode it appends exactly one
timeout-bounded write whose payload is 0x40 followed by the bytes of s; in
4-bit mode it appends, for each byte c of s in order, the two nibble
transactions 0x09 | (c & 0xF0) and 0x09 | ((c << 4) & 0xF0). -/
theorem print_data (w : Hw) (s : List Nat) (hs : 0 ∉ s) (hinit : w.lcd.initialized_ = true) :
    (print s w).lcd = w.lcd
    ∧ (w.lcd.is_4bit_ = false →
        (print s w).trace = w.trace ++ [Event.write_timeout w.lcd.addr_ (0x40 :: s) 10000])
    ∧ (w.lcd.is_4bit_ = true →
        (print s w).trace = w.trace ++
          s.flatMap (fun c =>
            nibbleTx w.lcd.addr_ (0x01 ||| 0x08 ||| (c &&& 0xF0)) ++
            nibbleTx w.lcd.addr_ (0x01 ||| 0x08 ||| ((c <<< 4) &&& 0xF0)))) := by
  rw [print_eq s w hs]
  refine ⟨?_, ?_, ?_⟩
  · cases h : w.lcd.is_4bit_ <;> simp [hinit]
  · intro h8
    simp [h8, hinit]
  · intro h4
    simp only [h4, if_true]
    rfl

theorem print_data_witness :
    0 ∉ hello ∧ (init true sample8).lcd.initialized_ = true
    ∧ (print hello (init true sample8)).trace = (init true sample8).trace ++
        [Event.write_timeout 0x27 [0x40, 0x48, 0x45, 0x4C, 0x4C, 0x4F] 10000]
    ∧ (print [0x48, 0x45] (init true sample4)).trace = (init true sample4).trace ++
        [Event.write_blocking 0x27 [0x4D], Event.write_blocking 0x27 [0x49],
         Event.write_blocking 0x27 [0x8D], Event.write_blocking 0x27 [0x89],
         Event.write_blocking 0x27 [0x4D], Event.write_blocking 0x27 [0x49],
         Event.write_blocking 0x27 [0x5D], Event.write_blocking 0x27 [0x59]] :=
  ⟨by decide, by decide,
    (print_data (init true sample8) hello (by decide) (by decide)).2.1 (by decide),
    (print_data (init true sample4) [0x48, 0x45] (by decide) (by decide)).2.2 (by decide)⟩

/-- C9: what the code does. In 4-bit mode `print` does not look at the
initialised flag: on the 4-bit session that is not ready, `print "A"` appends
four bus writes; the 8-bit session that is not ready stays untouched. -/
theorem print_uninitialized_4bit_writes :
    is_ready sample4 = false
    ∧ (print [0x41] sample4).trace =
        [Event.write_blocking 0x27 [0x4D], Event.write_blocking 0x27 [0x49],
         Event.write_blocking 0x27 [0x1D], Event.write_blocking 0x27 [0x19]]
    ∧ is_ready sample8 = false
    ∧ print [0x41] sample8 = sample8 := by
  decide

/-! ## The 4-bit round trip -/

/-- C10, as stated, fails: the bus writes of `init; setCursor 0 0; print "HELLO"`
on the 4-bit 20x4 session start with the raw 1-byte write of 0x00, so they are
not the bare list of nibble transactions. -/
theorem roundtrip_not_nibbles_only :
    ((print hello (setCursor 0 0 (init true sample4))).trace.filter Event.isWrite).head?
        = some (Event.write_blocking 0x27 [0x00])
    ∧ ¬ ((print hello (setCursor 0 0 (init true sample4))).trace.filter Event.isWrite =
          nibbleTx 0x27 0x30 ++ nibbleTx 0x27 0x30 ++ nibbleTx 0x27 0x30 ++
          nibbleTx 0x27 0x20 ++
          cmdTx4 0x27 0x08 ++ cmdTx4 0x27 0x08 ++ cmdTx4 0x27 0x01 ++ cmdTx4 0x27 0x02 ++
          cmdTx4 0x27 0x06 ++ cmdTx4 0x27 0x0C ++ cmdTx4 0x27 0x0C ++ cmdTx4 0x27 0x28 ++
          cmdTx4 0x27 0x80 ++
          hello.flatMap (dataTx4 0x27)) := by
  decide

/-- C10, amended: for a 4-bit session whose device is present and every text s
without a NUL byte, the bus writes of `init; setCursor 0 0; print s` are the
raw 1-byte write of 0x00 followed by exactly: the three FUNCTIONRESET nibbles,
the FUNCTIONSET nibble, the eight bring-up commands as two nibbles each, the
two nibbles of command 0x80, then two data nibbles per byte of s in order. -/
theorem roundtrip_trace (w : Hw) (s : List Nat) (h4 : w.lcd.is_4bit_ = true) (hs : 0 ∉ s) :
    (print s (setCursor 0 0 (init true w))).trace.filter Event.isWrite =
      w.trace.filter Event.isWrite ++
        ([Event.write_blocking w.lcd.addr_ [0x00]] ++
         nibbleTx w.lcd.addr_ 0x30 ++ nibbleTx w.lcd.addr_ 0x30 ++ nibbleTx w.lcd.addr_ 0x30 ++
         nibbleTx w.lcd.addr_ 0x20 ++
         cmdTx4 w.lcd.addr_ 0x08 ++ cmdTx4 w.lcd.addr_ 0x08 ++ cmdTx4 w.lcd.addr_ 0x01 ++
         cmdTx4 w.lcd.addr_ 0x02 ++ cmdTx4 w.lcd.addr_ 0x06 ++ cmdTx4 w.lcd.addr_ 0x0C ++
         cmdTx4 w.lcd.addr_ 0x0C ++ cmdTx4 w.lcd.addr_ 0x28 ++
         cmdTx4 w.lcd.addr_ 0x80 ++
         s.flatMap (dataTx4 w.lcd.addr_)) := by
  have hc : (setCursor 0 0 (init true w)) =
      ⟨(init true w).lcd, (init true w).trace ++ cmdTx4 w.lcd.addr_ 0x80⟩ := by
    simp [setCursor, command_eq, cmdTx, u8, init_4bit_mode_eq w h4, h4]
  rw [print_eq s _ hs, hc]
  simp [init_4bit_mode_eq w h4, h4, bringup4, List.filter_append, filter_isWrite_nibbleTx,
    filter_isWrite_cmdTx4, filter_isWrite_flatMap_dataTx4, Event.isWrite]

theorem roundtrip_trace_witness :
    sample4.lcd.is_4bit_ = true ∧ 0 ∉ hello
    ∧ (print hello (setCursor 0 0 (init true sample4))).trace.filter Event.isWrite =
        [Event.write_blocking 0x27 [0x00]] ++
         nibbleTx 0x27 0x30 ++ nibbleTx 0x27 0x30 ++ nibbleTx 0x27 0x30 ++
         nibbleTx 0x27 0x20 ++
         cmdTx4 0x27 0x08 ++ cmdTx4 0x27 0x08 ++ cmdTx4 0x27 0x01 ++
         cmdTx4 0x27 0x02 ++ cmdTx4 0x27 0x06 ++ cmdTx4 0x27 0x0C ++
         cmdTx4 0x27 0x0C ++ cmdTx4 0x27 0x28 ++
         cmdTx4 0x27 0x80 ++
         (dataTx4 0x27 0x48 ++ dataTx4 0x27 0x45 ++ dataTx4 0x27 0x4C ++ dataTx4 0x27 0x4C ++
          dataTx4 0x27 0x4F) :=
  ⟨rfl, by decide, roundtrip_trace sample4 hello rfl (by decide)⟩

/-! ## Custom glyphs -/

/-- C11: what the code does. On the initialised 8-bit 20x4 session,
`create_char 0` with the bitmap 1, 2, ..., 8 sends the command 0x40 and then
one data write of ten bytes: the marker 0x40 twice, then the bitmap. The 8
bytes after the first marker are 0x40, 1, ..., 7 and not the bitmap. -/
theorem create_char_8bit_double_marker :
    (init true sample8).lcd.initialized_ = true
    ∧ (init true sample8).lcd.is_4bit_ = false
    ∧ (create_char 0 [1, 2, 3, 4, 5, 6, 7, 8] (init true sample8)).trace
        = (init true sample8).trace ++
            [ Event.write_timeout 0x27 [0x80, 0x40] 10000,
              Event.write_timeout 0x27 [0x40, 0x40, 1, 2, 3, 4, 5, 6, 7, 8] 10000 ]
    ∧ (print [1, 2, 3, 4, 5, 6, 7, 8] (init true sample8)).trace
        = (init true sample8).trace ++
            [ Event.write_timeout 0x27 [0x40, 1, 2, 3, 4, 5, 6, 7, 8] 10000 ] := by
  decide

/-- C12: for every state, both wire modes, every location and every bitmap m,
`create_char location m` is `create_char (location & 7) m` (same trace, same
state); slot 9 behaves as slot 1; the command byte sent first is
0x40 + 8 * (location mod 8), one of 0x40, 0x48, ..., 0x78. -/
theorem create_char_masks_location (location : Nat) (m : List Nat) (w : Hw) :
    create_char location m w = create_char (location &&& 0x07) m w
    ∧ create_char 9 m w = create_char 1 m w
    ∧ (create_char location m w).trace = w.trace ++
        (cmdTx w.lcd.is_4bit_ w.lcd.addr_ (0x40 + 8 * (location % 8)) ++
          (if w.lcd.is_4bit_ then
            [Event.sleep_us 40] ++
              (if w.lcd.initialized_ then (m.take 8).flatMap (dataTx4 w.lcd.addr_) else [])
           else if w.lcd.initialized_ then
            [Event.write_timeout w.lcd.addr_ (0x40 :: 0x40 :: m.take 8) 10000]
           else []))
    ∧ 0x40 + 8 * (location % 8) ∈ [0x40, 0x48, 0x50, 0x58, 0x60, 0x68, 0x70, 0x78] := by
  have h7 : location &&& 0x07 = location % 8 := Nat.and_pow_two_sub_one_eq_mod location 3
  have hmem : ∀ k < 8, 0x40 + 8 * k ∈ [0x40, 0x48, 0x50, 0x58, 0x60, 0x68, 0x70, 0x78] := by
    decide
  refine ⟨?_, ?_, ?_, hmem _ (Nat.mod_lt _ (by decide))⟩
  · rw [create_char_eq, create_char_eq, h7, Nat.mod_mod]
  · rw [create_char_eq, create_char_eq]
  · rw [create_char_eq]

/-! ## Operations on a session that is not ready -/

/-- C13, as stated, fails: on the 8-bit session that is not ready `clear` and
`setCursor 0 0` each write to the bus, and so does `display true` on the 4-bit
session that is not ready. -/
theorem uninitialized_clear_writes :
    is_ready sample8 = false
    ∧ (clear sample8).trace = [Event.write_timeout 0x27 [0x80, 0x01] 10000, Event.sleep_ms 2]
    ∧ (setCursor 0 0 sample8).trace = [Event.write_timeout 0x27 [0x80, 0x80] 10000]
    ∧ is_ready sample4 = false
    ∧ (display true sample4).trace =
        [Event.write_blocking 0x27 [0x0C], Event.write_blocking 0x27 [0x08],
         Event.write_blocking 0x27 [0xCC], Event.write_blocking 0x27 [0xC8]]
    ∧ ¬ ((clear sample8).trace.filter Event.isWrite = sample8.trace.filter Event.isWrite) := by
  decide

/-- C13, amended: the command path is not gated. For both wire modes and every
state with `is_ready` false, `clear` and `home` send their command followed by
the 2 ms delay, `setCursor`, `display`, `cursor`, `blink` and `autoscroll` send
exactly one command, and each of these traces is the one sent with the flag
set; `create_char` sends only its SETCGRAMADDR command (then the 40 us delay in
4-bit mode) and no glyph data. -/
theorem uninitialized_commands_still_sent (w : Hw) (hready : is_ready w = false)
    (col row location : Nat) (v : Bool) (m : List Nat) :
    ((clear w).trace = w.trace ++ (cmdTx w.lcd.is_4bit_ w.lcd.addr_ 0x01 ++ [Event.sleep_ms 2])
      ∧ (clear (set_initialized true w)).trace = (clear w).trace)
    ∧ ((home w).trace = w.trace ++ (cmdTx w.lcd.is_4bit_ w.lcd.addr_ 0x02 ++ [Event.sleep_ms 2])
      ∧ (home (set_initialized true w)).trace = (home w).trace)
    ∧ ((setCursor col row w).trace = w.trace ++ cmdTx w.lcd.is_4bit_ w.lcd.addr_
          ((0x80 + (if row &&& 1 ≠ 0 then 0x40 else 0)
              + (if row &&& 2 ≠ 0 then w.lcd.cols_ else 0) + col) % 256)
      ∧ (setCursor col row (set_initialized true w)).trace = (setCursor col row w).trace)
    ∧ ((display v w).trace = w.trace ++ cmdTx w.lcd.is_4bit_ w.lcd.addr_
          (LCD_DISPLAYCONTROL ||| (display v w).lcd.display_control_)
      ∧ (display v (set_initialized true w)).trace = (display v w).trace)
    ∧ ((cursor v w).trace = w.trace ++ cmdTx w.lcd.is_4bit_ w.lcd.addr_
          (LCD_DISPLAYCONTROL ||| (cursor v w).lcd.display_control_)
      ∧ (cursor v (set_initialized true w)).trace = (cursor v w).trace)
    ∧ ((blink v w).trace = w.trace ++ cmdTx w.lcd.is_4bit_ w.lcd.addr_
          (LCD_DISPLAYCONTROL ||| (blink v w).lcd.display_control_)
      ∧ (blink v (set_initialized true w)).trace = (blink v w).trace)
    ∧ ((∃ c, (autoscroll v w).trace = w.trace ++ cmdTx w.lcd.is_4bit_ w.lcd.addr_ c)
      ∧ (autoscroll v (set_initialized true w)).trace = (autoscroll v w).trace)
    ∧ (create_char location m w).trace = w.trace ++
        (cmdTx w.lcd.is_4bit_ w.lcd.addr_ (0x40 + 8 * (location % 8)) ++
          (if w.lcd.is_4bit_ then [Event.sleep_us 40] else [])) := by
  have hinit : w.lcd.initialized_ = false := hready
  refine ⟨⟨?_, ?_⟩, ⟨?_, ?_⟩, ⟨?_, ?_⟩, ⟨?_, ?_⟩, ⟨?_, ?_⟩, ⟨?_, ?_⟩,
    ⟨⟨LCD_DISPLAYCONTROL ||| (blink v w).lcd.display_control_, ?_⟩, ?_⟩, ?_⟩
  · simp [clear_eq]
  · simp [clear_eq, set_initialized]
  · simp [home_eq]
  · simp [home_eq, set_initialized]
  · simp [setCursor_eq]
  · simp [setCursor_eq, set_initialized]
  · simp [display_eq]
  · simp [display_eq, set_initialized]
  · simp [cursor_eq]
  · simp [cursor_eq, set_initialized]
  · simp [blink_eq]
  · simp [blink_eq, set_initialized]
  · simp [autoscroll_eq_blink, blink_eq]
  · simp [autoscroll_eq_blink, blink_eq, set_initialized]
  · rw [create_char_eq]
    cases h4 : w.lcd.is_4bit_ <;> simp [hinit]

theorem uninitialized_commands_still_sent_witness :
    is_ready sample4 = false
    ∧ (clear sample4).trace =
        [Event.write_blocking 0x27 [0x0C], Event.write_blocking 0x27 [0x08],
         Event.write_blocking 0x27 [0x1C], Event.write_blocking 0x27 [0x18],
         Event.sleep_ms 5, Event.sleep_ms 2]
    ∧ (create_char 9 [1, 2, 3, 4, 5, 6, 7, 8] sample4).trace =
        [Event.write_blocking 0x27 [0x4C], Event.write_blocking 0x27 [0x48],
         Event.write_blocking 0x27 [0x8C], Event.write_blocking 0x27 [0x88],
         Event.sleep_us 40] :=
  ⟨rfl,
    (uninitialized_commands_still_sent sample4 rfl 0 0 9 true [1, 2, 3, 4, 5, 6, 7, 8]).1.1,
    (uninitialized_commands_still_sent sample4 rfl 0 0 9 true
      [1, 2, 3, 4, 5, 6, 7, 8]).2.2.2.2.2.2.2⟩

/-! ## Settle after clear -/

/-- C14: in both wire modes and for every state, `clear` appends the
CLEARDISPLAY command 0x01 and then only delays (2 ms in 8-bit mode, 5 ms and
2 ms in 4-bit mode); the delays after the last bus write total at least 2 ms,
and they stand between the clear-display command and any command sent next. -/
theorem clear_settle (w : Hw) (c : Nat) :
    (clear w).trace = w.trace ++
        ((if w.lcd.is_4bit_ then cmdTx4 w.lcd.addr_ LCD_CLEARDISPLAY
          else cmdTx8 w.lcd.addr_ LCD_CLEARDISPLAY) ++
         (if w.lcd.is_4bit_ then [Event.sleep_ms 5, Event.sleep_ms 2] else [Event.sleep_ms 2]))
    ∧ 2000 ≤ trailingDelay (clear w).trace
    ∧ (command c (clear w)).trace = w.trace ++
        ((if w.lcd.is_4bit_ then cmdTx4 w.lcd.addr_ LCD_CLEARDISPLAY
          else cmdTx8 w.lcd.addr_ LCD_CLEARDISPLAY) ++
         (if w.lcd.is_4bit_ then [Event.sleep_ms 5, Event.sleep_ms 2] else [Event.sleep_ms 2]) ++
         cmdTx w.lcd.is_4bit_ w.lcd.addr_ c) := by
  cases h4 : w.lcd.is_4bit_
  · simp [clear_eq, command_eq, cmdTx, cmdTx8, trailingDelay, Event.isWrite, Event.micros, h4]
  · simp [clear_eq, command_eq, cmdTx, cmdTx4, nibbleTx, trailingDelay, Event.isWrite,
      Event.micros, h4]

/-! ## Lifecycle of the initialised flag -/

/-- C15: the flag `initialized_` goes from false to true only through `init`
with a succeeding probe; `deinit` sets it false, appends nothing to the trace
and keeps every other field; `is_present` returns the probe answer, clears the
flag on a failing probe and changes nothing on a succeeding one; `is_ready`
changes nothing; `clear`, `home`, `setCursor`, `display`, `cursor`, `blink`,
`autoscroll`, `backlight`, `create_char` and `print` leave the flag as it is. -/
theorem initialized_lifecycle (op : Op) (w : Hw) (col row location : Nat) (v : Bool)
    (m s : List Nat) :
    (w.lcd.initialized_ = false → (op.run w).lcd.initialized_ = true → op = Op.init true)
    ∧ deinit w = ⟨{ w.lcd with initialized_ := false }, w.trace⟩
    ∧ is_present true w = (true, w)
    ∧ is_present false w = (false, ⟨{ w.lcd with initialized_ := false }, w.trace⟩)
    ∧ Op.is_ready.run w = w
    ∧ (clear w).lcd.initialized_ = w.lcd.initialized_
    ∧ (home w).lcd.initialized_ = w.lcd.initialized_
    ∧ (setCursor col row w).lcd.initialized_ = w.lcd.initialized_
    ∧ (display v w).lcd.initialized_ = w.lcd.initialized_
    ∧ (cursor v w).lcd.initialized_ = w.lcd.initialized_
    ∧ (blink v w).lcd.initialized_ = w.lcd.initialized_
    ∧ (autoscroll v w).lcd.initialized_ = w.lcd.initialized_
    ∧ (backlight v w).lcd.initialized_ = w.lcd.initialized_
    ∧ (create_char location m w).lcd.initialized_ = w.lcd.initialized_
    ∧ (print s w).lcd.initialized_ = w.lcd.initialized_ := by
  have hprint : ∀ t : List Nat, (print t w).lcd.initialized_ = w.lcd.initialized_ := by
    intro t
    simp [print, write_lcd]
  refine ⟨?_, rfl, rfl, rfl, rfl, ?_, ?_, ?_, ?_, ?_, ?_, ?_, ?_, ?_, hprint s⟩
  · intro h0 h1
    cases op with
    | init present =>
      cases present
      · simp [Op.run, init_absent_eq] at h1
      · rfl
    | deinit => simp [Op.run, deinit, set_initialized] at h1
    | clear => simp [Op.run, clear_eq, h0] at h1
    | home => simp [Op.run, home_eq, h0] at h1
    | setCursor c r => simp [Op.run, setCursor_eq, h0] at h1
    | display d => simp [Op.run, display_eq, h0] at h1
    | cursor c => simp [Op.run, cursor_eq, h0] at h1
    | blink b => simp [Op.run, blink_eq, h0] at h1
    | autoscroll a => simp [Op.run, autoscroll_eq_blink, blink_eq, h0] at h1
    | backlight o => simp [Op.run, backlight_eq, h0] at h1
    | create_char l cm => simp [Op.run, create_char_eq, h0] at h1
    | print t => simp [Op.run, hprint, h0] at h1
    | is_present present =>
      cases present <;> simp [Op.run, is_present, set_initialized, h0] at h1
    | is_ready => simp [Op.run, h0] at h1
  · simp [clear_eq]
  · simp [home_eq]
  · simp [setCursor_eq]
  · simp [display_eq]
  · simp [cursor_eq]
  · simp [blink_eq]
  · simp [autoscroll_eq_blink, blink_eq]
  · simp [backlight_eq]
  · simp [create_char_eq]

theorem initialized_lifecycle_witness :
    sample8.lcd.initialized_ = false
    ∧ ((Op.init true).run sample8).lcd.initialized_ = true
    ∧ Op.init true = Op.init true
    ∧ (deinit (init true sample8)).lcd.initialized_ = false
    ∧ (deinit (init true sample8)).trace = (init true sample8).trace
    ∧ (print hello (init true sample4)).lcd.initialized_ = true :=
  ⟨rfl, by decide,
    (initialized_lifecycle (Op.init true) sample8 0 0 0 true [] []).1 rfl (by decide),
    by decide, by decide, by decide⟩

/-! ## Repeated initialisation -/

/-- C16, as stated, fails for a failing probe: the two 8-bit sessions
`init true sample8` and the same after `cursor true; blink true` agree on
address, columns, rows and wire mode, yet after `init false` their
`display_control_` bytes are 0x0C and 0x0F. -/
theorem init_absent_keeps_display_control :
    (init true sample8).lcd.addr_ = (blink true (cursor true (init true sample8))).lcd.addr_
    ∧ (init true sample8).lcd.cols_ = (blink true (cursor true (init true sample8))).lcd.cols_
    ∧ (init true sample8).lcd.rows_ = (blink true (cursor true (init true sample8))).lcd.rows_
    ∧ (init true sample8).lcd.is_4bit_
        = (blink true (cursor true (init true sample8))).lcd.is_4bit_
    ∧ (init false (init true sample8)).lcd.display_control_ = 0x0C
    ∧ (init false (blink true (cursor true (init true sample8)))).lcd.display_control_ = 0x0F
    ∧ ¬ ((init false (init true sample8)).lcd.display_control_
          = (init false (blink true (cursor true (init true sample8)))).lcd.display_control_) := by
  decide

/-- C16, amended: for two states that agree on address, columns, rows and wire
mode, `init` with the same probe answer appends the same events t to both
traces and ends with the same `initialized_`; a second `init` appends t again;
with a succeeding probe the final `display_control_` bytes are equal, with a
failing probe each `display_control_` is left as it was. -/
theorem init_ignores_prior_state (w1 w2 : Hw) (p : Bool)
    (ha : w1.lcd.addr_ = w2.lcd.addr_) (_hc : w1.lcd.cols_ = w2.lcd.cols_)
    (hr : w1.lcd.rows_ = w2.lcd.rows_) (h4 : w1.lcd.is_4bit_ = w2.lcd.is_4bit_) :
    (∃ t, (init p w1).trace = w1.trace ++ t
        ∧ (init p w2).trace = w2.trace ++ t
        ∧ (init p (init p w1)).trace = (init p w1).trace ++ t)
    ∧ (init p w1).lcd.initialized_ = (init p w2).lcd.initialized_
    ∧ (p = true → (init p w1).lcd.display_control_ = (init p w2).lcd.display_control_)
    ∧ (p = false → (init p w1).lcd.display_control_ = w1.lcd.display_control_
                  ∧ (init p w2).lcd.display_control_ = w2.lcd.display_control_) := by
  cases p
  · refine ⟨⟨[], ?_, ?_, ?_⟩, ?_, ?_, ?_⟩ <;> simp [init_absent_eq]
  · cases h : w1.lcd.is_4bit_
    · have h2 : w2.lcd.is_4bit_ = false := h4 ▸ h
      have h3 : (init true w1).lcd.is_4bit_ = false := by simp [init_8bit_mode_eq w1 h, h]
      refine ⟨⟨[Event.write_blocking w1.lcd.addr_ [0x00]] ++ bringup8 w1.lcd.addr_ w1.lcd.rows_,
        ?_, ?_, ?_⟩, ?_, ?_, ?_⟩
      · rw [init_8bit_mode_eq w1 h]
      · rw [init_8bit_mode_eq w2 h2, ha, hr]
      · rw [init_8bit_mode_eq _ h3, init_8bit_mode_eq w1 h]
      · rw [init_8bit_mode_eq w1 h, init_8bit_mode_eq w2 h2]
      · intro _
        rw [init_8bit_mode_eq w1 h, init_8bit_mode_eq w2 h2, hr]
      · intro hp
        cases hp
    · have h2 : w2.lcd.is_4bit_ = true := h4 ▸ h
      have h3 : (init true w1).lcd.is_4bit_ = true := by simp [init_4bit_mode_eq w1 h, h]
      refine ⟨⟨[Event.write_blocking w1.lcd.addr_ [0x00]] ++ bringup4 w1.lcd.addr_,
        ?_, ?_, ?_⟩, ?_, ?_, ?_⟩
      · rw [init_4bit_mode_eq w1 h]
      · rw [init_4bit_mode_eq w2 h2, ha]
      · rw [init_4bit_mode_eq _ h3, init_4bit_mode_eq w1 h]
      · rw [init_4bit_mode_eq w1 h, init_4bit_mode_eq w2 h2]
      · intro _
        rw [init_4bit_mode_eq w1 h, init_4bit_mode_eq w2 h2, hr]
      · intro hp
        cases hp

theorem init_ignores_prior_state_witness :
    (init true sample8).lcd.addr_ = (blink true (cursor true (init true sample8))).lcd.addr_
    ∧ (init true sample8).lcd.cols_ = (blink true (cursor true (init true sample8))).lcd.cols_
    ∧ (init true sample8).lcd.rows_ = (blink true (cursor true (init true sample8))).lcd.rows_
    ∧ (init true sample8).lcd.is_4bit_
        = (blink true (cursor true (init true sample8))).lcd.is_4bit_
    ∧ (blink true (cursor true (init true sample8))).lcd.display_control_ = 0x0F
    ∧ (init true (init true sample8)).lcd.display_control_
        = (init true (blink true (cursor true (init true sample8)))).lcd.display_control_
    ∧ (init true (init true sample8)).lcd.initialized_
        = (init true (blink true (cursor true (init true sample8)))).lcd.initialized_ :=
  ⟨by decide, by decide, by decide, by decide, by decide,
    (init_ignores_prior_state (init true sample8) (blink true (cursor true (init true sample8)))
      true (by decide) (by decide) (by decide) (by decide)).2.2.1 rfl,
    (init_ignores_prior_state (init true sample8) (blink true (cursor true (init true sample8)))
      true (by decide) (by decide) (by decide) (by decide)).2.1⟩

/-! ## Cursor addressing out of range -/

/-- C17, as stated, fails: on the 20-column 8-bit session `setCursor 129 0`
sends the command byte 0x01, which has bit 0x80 clear and is the clear-display
instruction; on the 4-bit session `setCursor 130 0` sends 0x02, return-home,
with its 5 ms settle. -/
theorem setCursor_wraps_to_clear :
    setCursor 129 0 sample8 = command LCD_CLEARDISPLAY sample8
    ∧ (setCursor 129 0 sample8).trace = [Event.write_timeout 0x27 [0x80, 0x01] 10000]
    ∧ 0x01 &&& LCD_SETDDRAMADDR = 0
    ∧ setCursor 130 0 sample4 = command LCD_RETURNHOME sample4 := by
  decide

/-- C17, amended: for every column count, col and row, `setCursor col row`
changes no field and sends exactly one command, whose byte is
(0x80 + (0x40 if row&1) + (cols if row&2) + col) mod 256; that byte has bit
0x80 set exactly when ((0x40 if row&1) + (cols if row&2) + col) mod 256 is
below 128. -/
theorem setCursor_byte_mod (w : Hw) (col row : Nat) :
    (setCursor col row w).lcd = w.lcd
    ∧ (setCursor col row w).trace = w.trace ++ cmdTx w.lcd.is_4bit_ w.lcd.addr_
        ((0x80 + (if row &&& 1 ≠ 0 then 0x40 else 0)
            + (if row &&& 2 ≠ 0 then w.lcd.cols_ else 0) + col) % 256)
    ∧ (((0x80 + (if row &&& 1 ≠ 0 then 0x40 else 0)
            + (if row &&& 2 ≠ 0 then w.lcd.cols_ else 0) + col) % 256) &&& LCD_SETDDRAMADDR
          = LCD_SETDDRAMADDR
        ↔ ((if row &&& 1 ≠ 0 then 0x40 else 0)
            + (if row &&& 2 ≠ 0 then w.lcd.cols_ else 0) + col) % 256 < 128) := by
  refine ⟨by simp [setCursor_eq], by simp [setCursor_eq], ?_⟩
  rw [bit7_iff _ (Nat.mod_lt _ (by decide))]
  omega

/-! ## The command encoder -/

/-- C18: for every command byte c, `command c` changes no field; in 8-bit
mode it appends exactly the one 2-byte write [0x80, c] and no delay; in 4-bit
mode it appends exactly the four 1-byte writes h|0x04, h, l|0x04, l with
h = 0x08 | (c & 0xF0) and l = 0x08 | ((c << 4) & 0xF0), all with bits 0x01 and
0x02 clear, followed by the 5 ms delay exactly when c <= 3. -/
theorem command_encoding (c : Nat) (hc : c < 256) (w : Hw) :
    (command c w).lcd = w.lcd
    ∧ (w.lcd.is_4bit_ = false →
        (command c w).trace = w.trace ++ [Event.write_timeout w.lcd.addr_ [0x80, c] 10000])
    ∧ (w.lcd.is_4bit_ = true →
        (command c w).trace = w.trace ++
          ([ Event.write_blocking w.lcd.addr_ [(0x08 ||| (c &&& 0xF0)) ||| 0x04],
             Event.write_blocking w.lcd.addr_ [0x08 ||| (c &&& 0xF0)],
             Event.write_blocking w.lcd.addr_ [(0x08 ||| ((c <<< 4) &&& 0xF0)) ||| 0x04],
             Event.write_blocking w.lcd.addr_ [0x08 ||| ((c <<< 4) &&& 0xF0)] ] ++
           (if c ≤ 3 then [Event.sleep_ms 5] else [])))
    ∧ (((0x08 ||| (c &&& 0xF0)) ||| 0x04) &&& (MASK_RS ||| MASK_RW) = 0
       ∧ (0x08 ||| (c &&& 0xF0)) &&& (MASK_RS ||| MASK_RW) = 0
       ∧ ((0x08 ||| ((c <<< 4) &&& 0xF0)) ||| 0x04) &&& (MASK_RS ||| MASK_RW) = 0
       ∧ (0x08 ||| ((c <<< 4) &&& 0xF0)) &&& (MASK_RS ||| MASK_RW) = 0)
    ∧ 5000 ≤ Event.micros (Event.sleep_ms 5) := by
  refine ⟨by simp [command_eq], ?_, ?_, nibble_control_bits c hc, by decide⟩
  · intro h8
    simp [command_eq, cmdTx, cmdTx8, h8]
  · intro h4
    simp [command_eq, cmdTx, cmdTx4, nibbleTx, h4]

theorem command_encoding_witness :
    (0x01 : Nat) < 256
    ∧ (command 0x01 sample8).trace = [Event.write_timeout 0x27 [0x80, 0x01] 10000]
    ∧ (command 0x01 sample4).trace =
        [Event.write_blocking 0x27 [0x0C], Event.write_blocking 0x27 [0x08],
         Event.write_blocking 0x27 [0x1C], Event.write_blocking 0x27 [0x18],
         Event.sleep_ms 5]
    ∧ (command 0xC5 sample4).trace =
        [Event.write_blocking 0x27 [0xCC], Event.write_blocking 0x27 [0xC8],
         Event.write_blocking 0x27 [0x5C], Event.write_blocking 0x27 [0x58]] :=
  ⟨by decide, (command_encoding 0x01 (by decide) sample8).2.1 rfl,
    (command_encoding 0x01 (by decide) sample4).2.2.1 rfl,
    (command_encoding 0xC5 (by decide) sample4).2.2.1 rfl⟩

/-! ## Injectivity of cursor addressing -/

/-- C19: with 1 <= cols <= 32 and two visible positions (col < cols, row < 4),
`setCursor` sends the byte 0x80 + (0x40 if row&1) + (cols if row&2) + col
unreduced, that byte has bit 7 set, and equal bytes, or equal traces, force
equal positions; with 33 <= cols <= 63 the visible positions (64 - cols, 2)
and (0, 1) both send 0xC0. -/
theorem setCursor_injective (w : Hw) (c1 r1 c2 r2 : Nat) :
    (1 ≤ w.lcd.cols_ ∧ w.lcd.cols_ ≤ 32 →
      c1 < w.lcd.cols_ → r1 < 4 → c2 < w.lcd.cols_ → r2 < 4 →
        (setCursor c1 r1 w).trace = w.trace ++ cmdTx w.lcd.is_4bit_ w.lcd.addr_
            (0x80 + (if r1 &&& 1 ≠ 0 then 0x40 else 0)
               + (if r1 &&& 2 ≠ 0 then w.lcd.cols_ else 0) + c1)
        ∧ (0x80 + (if r1 &&& 1 ≠ 0 then 0x40 else 0)
               + (if r1 &&& 2 ≠ 0 then w.lcd.cols_ else 0) + c1) < 256
        ∧ (0x80 + (if r1 &&& 1 ≠ 0 then 0x40 else 0)
               + (if r1 &&& 2 ≠ 0 then w.lcd.cols_ else 0) + c1) &&& 0x80 = 0x80
        ∧ ((0x80 + (if r1 &&& 1 ≠ 0 then 0x40 else 0)
               + (if r1 &&& 2 ≠ 0 then w.lcd.cols_ else 0) + c1)
             = (0x80 + (if r2 &&& 1 ≠ 0 then 0x40 else 0)
               + (if r2 &&& 2 ≠ 0 then w.lcd.cols_ else 0) + c2)
            → c1 = c2 ∧ r1 = r2)
        ∧ ((setCursor c1 r1 w).trace = (setCursor c2 r2 w).trace → c1 = c2 ∧ r1 = r2))
    ∧ (33 ≤ w.lcd.cols_ ∧ w.lcd.cols_ ≤ 63 →
        64 - w.lcd.cols_ < w.lcd.cols_
        ∧ setCursor (64 - w.lcd.cols_) 2 w = setCursor 0 1 w
        ∧ (setCursor 0 1 w).trace = w.trace ++ cmdTx w.lcd.is_4bit_ w.lcd.addr_ 0xC0) := by
  constructor
  · intro hcols hc1 hr1 hc2 hr2
    have hfit1 : (0x80 + (if r1 &&& 1 ≠ 0 then 0x40 else 0)
               + (if r1 &&& 2 ≠ 0 then w.lcd.cols_ else 0) + c1) < 256 := by
      split_ifs <;> omega
    have hfit2 : (0x80 + (if r2 &&& 1 ≠ 0 then 0x40 else 0)
               + (if r2 &&& 2 ≠ 0 then w.lcd.cols_ else 0) + c2) < 256 := by
      split_ifs <;> omega
    have hinj : (0x80 + (if r1 &&& 1 ≠ 0 then 0x40 else 0)
               + (if r1 &&& 2 ≠ 0 then w.lcd.cols_ else 0) + c1)
             = (0x80 + (if r2 &&& 1 ≠ 0 then 0x40 else 0)
               + (if r2 &&& 2 ≠ 0 then w.lcd.cols_ else 0) + c2)
            → c1 = c2 ∧ r1 = r2 := by
      interval_cases r1 <;> interval_cases r2 <;> simp <;> omega
    refine ⟨?_, hfit1, ?_, hinj, ?_⟩
    · rw [setCursor_eq, Nat.mod_eq_of_lt hfit1]
    · rw [bit7_iff _ hfit1]
      omega
    · intro ht
      rw [setCursor_eq, setCursor_eq, Nat.mod_eq_of_lt hfit1, Nat.mod_eq_of_lt hfit2] at ht
      exact hinj (cmdTx_injective _ _ _ _ hfit1 hfit2 (List.append_cancel_left ht))
  · intro hcols
    refine ⟨by omega, ?_, ?_⟩
    · rw [setCursor_eq, setCursor_eq]
      have : (0x80 + (if 2 &&& 1 ≠ 0 then 0x40 else 0)
               + (if 2 &&& 2 ≠ 0 then w.lcd.cols_ else 0) + (64 - w.lcd.cols_)) % 256
            = (0x80 + (if 1 &&& 1 ≠ 0 then 0x40 else 0)
               + (if 1 &&& 2 ≠ 0 then w.lcd.cols_ else 0) + 0) % 256 := by
        simp
        omega
      rw [this]
    · simp [setCursor_eq]

theorem setCursor_injective_witness :
    (1 ≤ sample8.lcd.cols_ ∧ sample8.lcd.cols_ ≤ 32)
    ∧ ((setCursor 5 2 sample8).trace = (setCursor 5 2 sample8).trace → 5 = 5 ∧ 2 = 2)
    ∧ (setCursor 19 3 sample8).trace = [Event.write_timeout 0x27 [0x80, 0xE7] 10000]
    ∧ (33 ≤ (⟨⟨0x27, 4, 40, 0, 0, false, false, 0, 0⟩, []⟩ : Hw).lcd.cols_
        ∧ (⟨⟨0x27, 4, 40, 0, 0, false, false, 0, 0⟩, []⟩ : Hw).lcd.cols_ ≤ 63)
    ∧ setCursor 24 2 ⟨⟨0x27, 4, 40, 0, 0, false, false, 0, 0⟩, []⟩
        = setCursor 0 1 ⟨⟨0x27, 4, 40, 0, 0, false, false, 0, 0⟩, []⟩ :=
  ⟨by decide,
    ((setCursor_injective sample8 5 2 5 2).1 (by decide) (by decide) (by decide) (by decide)
      (by decide)).2.2.2.2,
    ((setCursor_injective sample8 19 3 0 0).1 (by decide) (by decide) (by decide) (by decide)
      (by decide)).1,
    by decide,
    ((setCursor_injective ⟨⟨0x27, 4, 40, 0, 0, false, false, 0, 0⟩, []⟩ 0 0 0 0).2
      (by decide)).2.1⟩

/-! ## Reachable values of the display-control mirror -/

/-- C20: after `init` with a succeeding probe (any prior state, either wire
mode, any row count) followed by any finite sequence of public calls, the
mirror `display_control_` is at most 0x0F, and the command byte that
`display`, `cursor` or `blink` sends next lies between 0x08 and 0x0F. -/
theorem display_control_low_nibble (w0 : Hw) (ops : List Op) (v : Bool) :
    (runOps ops (init true w0)).lcd.display_control_ ≤ 0x0F
    ∧ ((display v (runOps ops (init true w0))).trace
          = (runOps ops (init true w0)).trace ++
              cmdTx (runOps ops (init true w0)).lcd.is_4bit_ (runOps ops (init true w0)).lcd.addr_
                (LCD_DISPLAYCONTROL ||| (display v (runOps ops (init true w0))).lcd.display_control_)
       ∧ 0x08 ≤ LCD_DISPLAYCONTROL ||| (display v (runOps ops (init true w0))).lcd.display_control_
       ∧ LCD_DISPLAYCONTROL ||| (display v (runOps ops (init true w0))).lcd.display_control_ ≤ 0x0F)
    ∧ ((cursor v (runOps ops (init true w0))).trace
          = (runOps ops (init true w0)).trace ++
              cmdTx (runOps ops (init true w0)).lcd.is_4bit_ (runOps ops (init true w0)).lcd.addr_
                (LCD_DISPLAYCONTROL ||| (cursor v (runOps ops (init true w0))).lcd.display_control_)
       ∧ 0x08 ≤ LCD_DISPLAYCONTROL ||| (cursor v (runOps ops (init true w0))).lcd.display_control_
       ∧ LCD_DISPLAYCONTROL ||| (cursor v (runOps ops (init true w0))).lcd.display_control_ ≤ 0x0F)
    ∧ ((blink v (runOps ops (init true w0))).trace
          = (runOps ops (init true w0)).trace ++
              cmdTx (runOps ops (init true w0)).lcd.is_4bit_ (runOps ops (init true w0)).lcd.addr_
                (LCD_DISPLAYCONTROL ||| (blink v (runOps ops (init true w0))).lcd.display_control_)
       ∧ 0x08 ≤ LCD_DISPLAYCONTROL ||| (blink v (runOps ops (init true w0))).lcd.display_control_
       ∧ LCD_DISPLAYCONTROL ||| (blink v (runOps ops (init true w0))).lcd.display_control_ ≤ 0x0F) := by
  have hinv : (runOps ops (init true w0)).lcd.display_control_ ≤ 0x0F :=
    runOps_display_control_le ops _ (init_display_control_le true w0 (Or.inl rfl))
  have hd := run_display_control_le (Op.display v) _ hinv
  have hc := run_display_control_le (Op.cursor v) _ hinv
  have hb := run_display_control_le (Op.blink v) _ hinv
  simp only [Op.run] at hd hc hb
  refine ⟨hinv, ⟨by simp [display_eq], ?_⟩, ⟨by simp [cursor_eq], ?_⟩, ⟨by simp [blink_eq], ?_⟩⟩
  · exact display_control_opcode _ (Nat.lt_succ_of_le hd)
  · exact display_control_opcode _ (Nat.lt_succ_of_le hc)
  · exact display_control_opcode _ (Nat.lt_succ_of_le hb)

end PicoLcd
